import Mathlib

/-!
Verification of the Prediction & Risk-Aggregation Engine of the
Disease-predictor web application.

The definitions below are a shallow embedding of the Python source:

* `backend/models/ml_model.py` — `DiseaseMLModel` (knowledge base,
  disease-key resolution, probability scoring, missing-symptom analysis);
* `backend/utils/calculator.py` — `bayesian_survival` and
  `BayesCalculator.calculate_posterior`;
* `backend/routes/ml_routes.py` — `get_risk_level`;
* `backend/routes/doctor_routes.py` — the percentage reconciliation in
  `get_real_dashboard_data`.

Python floats are embedded as exact rationals (`ℚ`) for the arithmetic the
routes perform, and as real numbers (`ℝ`) where the model applies the
transcendental sigmoid.  `None`-able values are `Option`s, and functions
that raise `ValueError` return `Except`.
-/

set_option maxRecDepth 4000

unseal Rat.add Rat.mul Rat.inv Rat.sub Rat.ofScientific

/-- A disease profile: the symptom-key → weight association list and the bias
term, one entry of `DiseaseMLModel.disease_weights`. -/
structure DiseaseProfile where
  symptoms : List (String × ℚ)
  bias : ℚ
deriving DecidableEq

/-- The knowledge base `DiseaseMLModel.disease_weights`
(src/backend/models/ml_model.py, lines 16-117), in insertion order, split
into four chunks purely to keep elaboration of the long literal fast. -/
def disease_weights_a : List (String × DiseaseProfile) := [
  ("diabetes", ⟨[("increased_thirst", 0.85), ("frequent_urination", 0.9), ("extreme_hunger", 0.75), ("unexplained_weight_loss", 0.8), ("fatigue", 0.6), ("blurred_vision", 0.7), ("slow_healing_sores", 0.65), ("frequent_infections", 0.6), ("tingling_hands_feet", 0.7), ("darkened_skin", 0.55)], -2.5⟩),
  ("hypertension", ⟨[("severe_headache", 0.75), ("chest_pain", 0.85), ("difficulty_breathing", 0.8), ("irregular_heartbeat", 0.9), ("blood_in_urine", 0.7), ("pounding_sensation", 0.65), ("vision_problems", 0.6), ("fatigue", 0.5), ("dizziness", 0.7), ("nosebleeds", 0.55)], -2.8⟩),
  ("covid19", ⟨[("fever", 0.8), ("dry_cough", 0.85), ("fatigue", 0.7), ("loss_taste_smell", 0.95), ("sore_throat", 0.6), ("headache", 0.65), ("body_aches", 0.7), ("difficulty_breathing", 0.9), ("chest_pain", 0.75), ("confusion", 0.8)], -3.0⟩),
  ("heart_disease", ⟨[("chest_pain", 0.9), ("shortness_breath", 0.85), ("pain_arms_neck", 0.75), ("dizziness", 0.65), ("rapid_heartbeat", 0.8), ("fatigue", 0.6), ("swelling_legs", 0.7), ("cold_sweats", 0.75), ("nausea", 0.55), ("jaw_pain", 0.7)], -2.7⟩),
  ("influenza", ⟨[("fever", 0.85), ("chills", 0.8), ("muscle_aches", 0.85), ("cough", 0.75), ("congestion", 0.7), ("runny_nose", 0.7), ("headache", 0.75), ("fatigue", 0.8)], -2.0⟩),
  ("malaria", ⟨[("fever", 0.9), ("chills", 0.9), ("headache", 0.75), ("nausea", 0.7), ("vomiting", 0.7), ("muscle_pain", 0.8), ("fatigue", 0.75), ("sweating", 0.85)], -2.2⟩),
  ("diabetes_type_2", ⟨[("increased_thirst", 0.85), ("frequent_urination", 0.9), ("hunger", 0.75), ("fatigue", 0.7), ("blurred_vision", 0.65)], -2.5⟩),
  ("breast_cancer", ⟨[("breast_lump", 0.95), ("breast_pain", 0.7), ("nipple_discharge", 0.8), ("skin_changes", 0.75), ("swollen_lymph_nodes", 0.7)], -4.0⟩),
  ("lung_cancer", ⟨[("persistent_cough", 0.9), ("coughing_blood", 0.95), ("chest_pain", 0.8), ("shortness_breath", 0.85), ("weight_loss", 0.75)], -4.0⟩),
  ("colorectal_cancer", ⟨[("change_bowel_habits", 0.85), ("blood_in_stool", 0.95), ("abdominal_pain", 0.75), ("weight_loss", 0.7), ("fatigue", 0.65)], -4.0⟩),
  ("prostate_cancer", ⟨[("difficulty_urinating", 0.85), ("blood_in_urine", 0.9), ("pelvic_pain", 0.7), ("bone_pain", 0.6)], -4.0⟩),
  ("stroke", ⟨[("numbness_face_arm_leg", 0.95), ("confusion", 0.9), ("trouble_speaking", 0.95), ("trouble_seeing", 0.85), ("severe_headache", 0.8), ("dizziness", 0.75)], -3.0⟩),
  ("pneumonia", ⟨[("cough_phlegm", 0.9), ("fever", 0.85), ("chills", 0.8), ("difficulty_breathing", 0.9), ("chest_pain", 0.85), ("fatigue", 0.75)], -2.5⟩),
  ("tuberculosis", ⟨[("persistent_cough", 0.9), ("coughing_blood", 0.95), ("chest_pain", 0.75), ("fever", 0.7), ("night_sweats", 0.85), ("weight_loss", 0.8)], -3.0⟩),
  ("hepatitis_b", ⟨[("yellow_skin_eyes", 0.95), ("dark_urine", 0.85), ("fatigue", 0.8), ("nausea", 0.75), ("abdominal_pain", 0.7)], -3.0⟩),
  ("hepatitis_c", ⟨[("yellow_skin_eyes", 0.9), ("dark_urine", 0.8), ("fatigue", 0.85), ("loss_appetite", 0.75), ("nausea", 0.7)], -3.0⟩),
  ("hiv_aids", ⟨[("fever", 0.8), ("chills", 0.75), ("rash", 0.7), ("night_sweats", 0.85), ("muscle_aches", 0.75), ("sore_throat", 0.7), ("swollen_lymph_nodes", 0.9)], -3.5⟩),
  ("alzheimers_disease", ⟨[("memory_loss", 0.95), ("difficulty_planning", 0.85), ("confusion_time_place", 0.9), ("misplacing_items", 0.8), ("mood_changes", 0.75)], -3.5⟩),
  ("parkinsons_disease", ⟨[("tremor", 0.95), ("slowed_movement", 0.9), ("rigid_muscles", 0.85), ("impaired_posture", 0.8), ("loss_automatic_movements", 0.75)], -3.5⟩),
  ("multiple_sclerosis", ⟨[("numbness_weakness", 0.9), ("vision_problems", 0.85), ("tingling", 0.8), ("fatigue", 0.85), ("dizziness", 0.75)], -3.5⟩),
  ("epilepsy", ⟨[("seizures", 0.99), ("confusion", 0.75), ("staring_spell", 0.8), ("uncontrollable_jerking", 0.9), ("loss_consciousness", 0.85)], -3.0⟩),
  ("asthma", ⟨[("shortness_breath", 0.9), ("chest_tightness", 0.85), ("wheezing", 0.95), ("coughing_at_night", 0.8)], -2.5⟩),
  ("copd", ⟨[("shortness_breath", 0.9), ("wheezing", 0.85), ("chest_tightness", 0.8), ("chronic_cough", 0.9), ("frequent_infections", 0.75)], -2.8⟩),
  ("kidney_disease", ⟨[("fatigue", 0.8), ("swollen_ankles", 0.85), ("poor_appetite", 0.75), ("puffy_eyes", 0.7), ("frequent_urination", 0.8)], -3.0⟩),
  ("liver_disease", ⟨[("yellow_skin_eyes", 0.95), ("abdominal_pain", 0.8), ("swelling_legs", 0.75), ("dark_urine", 0.85), ("chronic_fatigue", 0.8)], -3.0⟩)]

def disease_weights_b : List (String × DiseaseProfile) := [
  ("osteoarthritis", ⟨[("joint_pain", 0.9), ("stiffness", 0.85), ("tenderness", 0.8), ("loss_flexibility", 0.75), ("grating_sensation", 0.7)], -2.5⟩),
  ("rheumatoid_arthritis", ⟨[("tender_joints", 0.9), ("joint_stiffness", 0.9), ("fatigue", 0.8), ("fever", 0.6), ("loss_appetite", 0.7)], -3.0⟩),
  ("osteoporosis", ⟨[("back_pain", 0.8), ("loss_height", 0.85), ("stooped_posture", 0.8), ("bone_fracture", 0.9)], -2.8⟩),
  ("migraine", ⟨[("severe_headache", 0.95), ("sensitivity_light", 0.9), ("sensitivity_sound", 0.85), ("nausea", 0.8), ("vomiting", 0.75)], -2.0⟩),
  ("depression", ⟨[("persistent_sadness", 0.95), ("loss_interest", 0.9), ("sleep_disturbances", 0.85), ("fatigue", 0.8), ("anxiety", 0.75)], -2.5⟩),
  ("anxiety_disorder", ⟨[("nervousness", 0.9), ("panic", 0.85), ("rapid_heartbeat", 0.8), ("trembling", 0.75), ("fatigue", 0.7)], -2.5⟩),
  ("bipolar_disorder", ⟨[("mood_swings", 0.95), ("high_energy", 0.9), ("low_energy", 0.9), ("sleep_problems", 0.8)], -3.0⟩),
  ("schizophrenia", ⟨[("delusions", 0.95), ("hallucinations", 0.95), ("disorganized_speech", 0.9), ("abnormal_behavior", 0.85)], -3.5⟩),
  ("celiac_disease", ⟨[("diarrhea", 0.9), ("fatigue", 0.85), ("weight_loss", 0.8), ("bloating", 0.85), ("abdominal_pain", 0.8)], -3.0⟩),
  ("crohns_disease", ⟨[("diarrhea", 0.9), ("fever", 0.75), ("fatigue", 0.8), ("abdominal_pain", 0.85), ("blood_in_stool", 0.8)], -3.0⟩),
  ("ulcerative_colitis", ⟨[("diarrhea_blood", 0.95), ("abdominal_pain", 0.85), ("rectal_pain", 0.8), ("weight_loss", 0.75), ("fatigue", 0.7)], -3.0⟩),
  ("gout", ⟨[("intense_joint_pain", 0.95), ("lingering_discomfort", 0.8), ("inflammation", 0.85), ("limited_range_motion", 0.75)], -2.5⟩),
  ("psoriasis", ⟨[("red_patches_skin", 0.95), ("scaling_spots", 0.9), ("dry_cracked_skin", 0.8), ("itching", 0.75), ("swollen_joints", 0.7)], -2.5⟩),
  ("lupus", ⟨[("fatigue", 0.9), ("joint_pain", 0.85), ("butterfly_rash", 0.95), ("fever", 0.75), ("sensitivity_light", 0.8)], -3.5⟩),
  ("fibromyalgia", ⟨[("widespread_pain", 0.95), ("fatigue", 0.9), ("cognitive_difficulties", 0.8), ("sleep_problems", 0.85)], -3.0⟩),
  ("iron_deficiency_anemia", ⟨[("extreme_fatigue", 0.9), ("weakness", 0.85), ("pale_skin", 0.8), ("chest_pain", 0.75), ("cold_hands_feet", 0.7)], -2.5⟩),
  ("vitamin_d_deficiency", ⟨[("fatigue", 0.8), ("bone_pain", 0.85), ("muscle_weakness", 0.8), ("mood_changes", 0.7)], -2.0⟩),
  ("hypothyroidism", ⟨[("fatigue", 0.9), ("increased_sensitivity_cold", 0.85), ("constipation", 0.8), ("dry_skin", 0.75), ("weight_gain", 0.8)], -2.5⟩),
  ("hyperthyroidism", ⟨[("unintentional_weight_loss", 0.9), ("rapid_heartbeat", 0.85), ("increased_appetite", 0.8), ("nervousness", 0.8), ("sweating", 0.75)], -2.5⟩),
  ("adrenal_insufficiency", ⟨[("fatigue", 0.9), ("muscle_weakness", 0.85), ("loss_appetite", 0.8), ("weight_loss", 0.8), ("abdominal_pain", 0.75)], -3.5⟩),
  ("pituitary_disorders", ⟨[("headache", 0.8), ("vision_problems", 0.85), ("fatigue", 0.8), ("mood_changes", 0.75), ("infertility", 0.7)], -4.0⟩),
  ("glaucoma", ⟨[("blind_spots", 0.9), ("tunnel_vision", 0.85), ("severe_headache", 0.8), ("eye_pain", 0.85), ("blurred_vision", 0.8)], -3.0⟩),
  ("cataracts", ⟨[("clouded_vision", 0.95), ("sensitivity_light", 0.85), ("difficulty_seeing_night", 0.9), ("fading_colors", 0.8), ("double_vision", 0.75)], -2.5⟩),
  ("macular_degeneration", ⟨[("partial_vision_loss", 0.95), ("straight_lines_appear_wavy", 0.9), ("blurred_vision", 0.85), ("difficulty_adapting_low_light", 0.8)], -3.0⟩),
  ("hearing_loss", ⟨[("muffling_speech", 0.9), ("difficulty_understanding_words", 0.85), ("trouble_hearing_consonants", 0.8), ("asking_others_speak_slowly", 0.75)], -2.5⟩)]

def disease_weights_c : List (String × DiseaseProfile) := [
  ("tinnitus", ⟨[("ringing_ears", 0.95), ("buzzing_ears", 0.9), ("roaring_ears", 0.85), ("clicking_ears", 0.8)], -2.5⟩),
  ("sleep_apnea", ⟨[("loud_snoring", 0.9), ("stop_breathing_sleep", 0.95), ("gasping_air_sleep", 0.9), ("morning_headache", 0.75), ("daytime_sleepiness", 0.85)], -2.5⟩),
  ("insomnia", ⟨[("difficulty_falling_asleep", 0.95), ("waking_up_night", 0.9), ("waking_up_early", 0.85), ("daytime_tiredness", 0.8)], -2.0⟩),
  ("gerd", ⟨[("heartburn", 0.95), ("chest_pain", 0.8), ("difficulty_swallowing", 0.85), ("regurgitation", 0.9), ("sensation_lump_throat", 0.75)], -2.0⟩),
  ("ibs", ⟨[("abdominal_pain", 0.85), ("bloating", 0.8), ("gas", 0.8), ("diarrhea", 0.75), ("constipation", 0.75)], -2.0⟩),
  ("gallstones", ⟨[("sudden_intense_pain_abdomen", 0.95), ("back_pain", 0.8), ("nausea", 0.75), ("vomiting", 0.75), ("digestive_problems", 0.7)], -2.8⟩),
  ("kidney_stones", ⟨[("severe_pain_side_back", 0.95), ("pain_urination", 0.9), ("pink_red_brown_urine", 0.85), ("nausea", 0.8), ("frequent_urination", 0.75)], -2.8⟩),
  ("uti", ⟨[("strong_urge_urinate", 0.9), ("burning_sensation_urination", 0.95), ("cloudy_urine", 0.85), ("red_pink_urine", 0.8), ("pelvic_pain", 0.75)], -2.0⟩),
  ("benign_prostatic_hyperplasia", ⟨[("frequent_urination", 0.9), ("trouble_starting_urination", 0.85), ("weak_urine_stream", 0.85), ("dribbling_urination", 0.8)], -2.5⟩),
  ("endometriosis", ⟨[("painful_periods", 0.95), ("pain_intercourse", 0.85), ("pain_bowel_movements", 0.8), ("excessive_bleeding", 0.75), ("infertility", 0.7)], -3.0⟩),
  ("pcos", ⟨[("irregular_periods", 0.95), ("excess_androgen", 0.9), ("polycystic_ovaries", 0.95), ("weight_gain", 0.8), ("acne", 0.75)], -3.0⟩),
  ("preeclampsia", ⟨[("high_blood_pressure", 0.95), ("severe_headaches", 0.9), ("changes_vision", 0.85), ("swelling_face_hands", 0.8)], -3.5⟩),
  ("gestational_diabetes", ⟨[("increased_thirst", 0.85), ("frequent_urination", 0.9), ("fatigue", 0.75), ("nausea", 0.7)], -2.8⟩),
  ("myocardial_infarction", ⟨[("chest_pain", 0.95), ("shortness_breath", 0.9), ("cold_sweat", 0.85), ("fatigue", 0.8), ("nausea", 0.75)], -3.0⟩),
  ("atrial_fibrillation", ⟨[("palpitations", 0.95), ("weakness", 0.85), ("fatigue", 0.85), ("lightheadedness", 0.8), ("shortness_breath", 0.75)], -2.8⟩),
  ("heart_failure", ⟨[("shortness_breath", 0.95), ("fatigue", 0.9), ("swollen_legs", 0.9), ("rapid_heartbeat", 0.85), ("persistent_cough", 0.8)], -3.0⟩),
  ("peripheral_artery_disease", ⟨[("leg_pain_walking", 0.9), ("leg_numbness", 0.85), ("cold_legs", 0.8), ("sores_toes", 0.75), ("shiny_skin_legs", 0.7)], -3.0⟩),
  ("deep_vein_thrombosis", ⟨[("swelling_leg", 0.95), ("pain_leg", 0.9), ("red_skin_leg", 0.85), ("warmth_leg", 0.85)], -3.5⟩),
  ("pulmonary_embolism", ⟨[("shortness_breath", 0.95), ("chest_pain", 0.9), ("cough", 0.8), ("faintness", 0.85), ("rapid_pulse", 0.85)], -3.5⟩),
  ("sepsis", ⟨[("fever", 0.9), ("low_body_temperature", 0.85), ("rapid_heart_rate", 0.9), ("rapid_breathing", 0.9), ("confusion", 0.85)], -4.0⟩),
  ("meningitis", ⟨[("high_fever", 0.9), ("stiff_neck", 0.95), ("severe_headache", 0.9), ("nausea", 0.8), ("confusion", 0.85), ("sensitivity_light", 0.8)], -4.5⟩),
  ("encephalitis", ⟨[("headache", 0.9), ("fever", 0.85), ("muscle_aches", 0.8), ("confusion", 0.9), ("seizures", 0.85)], -4.5⟩),
  ("appendicitis", ⟨[("pain_lower_right_abdomen", 0.99), ("nausea", 0.85), ("vomiting", 0.8), ("loss_appetite", 0.75), ("fever", 0.7)], -3.0⟩),
  ("cholecystitis", ⟨[("severe_pain_upper_right_abdomen", 0.95), ("pain_radiating_shoulder", 0.85), ("tenderness_abdomen", 0.9), ("nausea", 0.8)], -3.0⟩),
  ("pancreatitis", ⟨[("upper_abdominal_pain", 0.95), ("abdominal_pain_back", 0.9), ("tenderness_abdomen", 0.85), ("fever", 0.8), ("rapid_pulse", 0.8)], -3.5⟩)]

def disease_weights_d : List (String × DiseaseProfile) := [
  ("gastritis", ⟨[("gnawing_pain_abdomen", 0.9), ("nausea", 0.85), ("vomiting", 0.8), ("fullness_abdomen", 0.8)], -2.5⟩),
  ("peptic_ulcer", ⟨[("burning_stomach_pain", 0.95), ("feeling_full", 0.85), ("heartburn", 0.8), ("nausea", 0.75)], -2.5⟩),
  ("diverticulitis", ⟨[("pain_abdominal", 0.9), ("nausea", 0.8), ("fever", 0.75), ("constipation", 0.7)], -2.8⟩),
  ("hemorrhoids", ⟨[("itching_anal", 0.9), ("pain_anal", 0.85), ("swelling_anal", 0.8), ("bleeding_bowel_movements", 0.85)], -2.0⟩),
  ("hernia", ⟨[("bulge_abdomen", 0.95), ("pain_lift_heavy", 0.9), ("ache_bulge", 0.85), ("nausea", 0.7)], -2.5⟩),
  ("fracture", ⟨[("pain", 0.95), ("swelling", 0.9), ("bruising", 0.85), ("deformity", 0.95), ("inability_move", 0.9)], -2.0⟩),
  ("spinal_stenosis", ⟨[("numbness_extremities", 0.85), ("weakness_extremities", 0.8), ("neck_pain", 0.75), ("balance_problems", 0.7)], -3.0⟩),
  ("herniated_disc", ⟨[("arm_leg_pain", 0.9), ("numbness", 0.85), ("weakness", 0.8)], -2.5⟩),
  ("scoliosis", ⟨[("uneven_shoulders", 0.95), ("uneven_waist", 0.9), ("one_hip_higher", 0.9)], -2.5⟩),
  ("tendonitis", ⟨[("pain_tendon", 0.95), ("tenderness", 0.9), ("mild_swelling", 0.8)], -2.0⟩),
  ("bursitis", ⟨[("aching_pain", 0.9), ("stiffness", 0.85), ("swollen_joint", 0.8), ("redness", 0.75)], -2.0⟩),
  ("carpal_tunnel_syndrome", ⟨[("numbness_fingers", 0.95), ("weakness_hand", 0.85), ("tingling_fingers", 0.9)], -2.2⟩),
  ("plantar_fasciitis", ⟨[("stabbing_pain_heel", 0.95), ("pain_morning", 0.9), ("pain_after_exercise", 0.8)], -2.0⟩),
  ("shingles", ⟨[("pain_burning", 0.95), ("red_rash", 0.9), ("fluid_filled_blisters", 0.9), ("itching", 0.85)], -2.8⟩),
  ("herpes_simplex", ⟨[("tingling_itching", 0.9), ("sores", 0.95), ("fever", 0.7), ("swollen_lymph_nodes", 0.75)], -2.5⟩),
  ("chickenpox", ⟨[("itchy_rash", 0.99), ("fever", 0.85), ("fatigue", 0.8), ("loss_appetite", 0.75)], -2.0⟩),
  ("measles", ⟨[("fever", 0.95), ("dry_cough", 0.85), ("runny_nose", 0.8), ("sore_throat", 0.75), ("inflamed_eyes", 0.8), ("koplik_spots", 0.95), ("skin_rash", 0.95)], -3.0⟩),
  ("mumps", ⟨[("swollen_salivary_glands", 0.99), ("fever", 0.85), ("headache", 0.8), ("muscle_aches", 0.8), ("weakness", 0.75)], -3.0⟩),
  ("rubella", ⟨[("mild_fever", 0.8), ("headache", 0.7), ("runny_nose", 0.7), ("inflamed_eyes", 0.7), ("pink_rash", 0.95), ("swollen_lymph_nodes", 0.85)], -2.5⟩),
  ("whooping_cough", ⟨[("runny_nose", 0.8), ("nasal_congestion", 0.8), ("red_watery_eyes", 0.75), ("severe_cough", 0.95)], -2.8⟩),
  ("diptheria", ⟨[("thick_gray_coating_throat", 0.99), ("sore_throat", 0.9), ("swollen_glands", 0.85), ("difficulty_breathing", 0.9)], -3.5⟩),
  ("tetanus", ⟨[("jaw_cramping", 0.95), ("muscle_spasms", 0.9), ("painful_muscle_stiffness", 0.9), ("trouble_swallowing", 0.85)], -4.0⟩),
  ("polio", ⟨[("fever", 0.8), ("sore_throat", 0.75), ("headache", 0.8), ("vomiting", 0.75), ("fatigue", 0.8), ("muscle_weakness", 0.9), ("meningitis", 0.85)], -4.5⟩)]

def disease_weights : List (String × DiseaseProfile) :=
  disease_weights_a ++ disease_weights_b ++ disease_weights_c ++ disease_weights_d
/-- Key normalization from `_get_disease_key`: lowercase, then replace spaces
and hyphens by underscores. -/
def normalizeKey (s : String) : String :=
  ⟨((s.data.map Char.toLower).map fun c => if c = ' ' then '_' else c).map
      fun c => if c = '-' then '_' else c⟩

/-- `key.replace('_', '')` as used for the fuzzy match in `_get_disease_key`. -/
def stripUnderscores (s : String) : String :=
  ⟨s.data.filter fun c => c ≠ '_'⟩

/-- `_get_disease_key` (ml_model.py lines 170–187), returning the resolved key
together with its profile: exact match on the normalized key, otherwise the
first key (in insertion order) whose underscore-stripped form matches the
stripped input, otherwise a not-found error carrying the original name and the
normalized attempt. -/
def resolve_disease (disease_name : String) : Except (String × String) (String × DiseaseProfile) :=
  let disease_key := normalizeKey disease_name
  match disease_weights.lookup disease_key with
  | some profile => Except.ok (disease_key, profile)
  | none =>
    match disease_weights.find?
        (fun kv => stripUnderscores kv.1 == stripUnderscores disease_key) with
    | some kv => Except.ok kv
    | none => Except.error (disease_name, disease_key)

/-- The key-only view of `_get_disease_key`. -/
def get_disease_key (disease_name : String) : Except (String × String) String :=
  (resolve_disease disease_name).map Prod.fst

/-- Age adjustment of the bias (`predict_disease_probability`, lines 200–206):
`+0.5` above 50, `-0.5` below 20, unchanged otherwise or when absent. -/
def age_adjusted_bias (bias : ℚ) (age : Option ℤ) : ℚ :=
  match age with
  | none => bias
  | some a => if a > 50 then bias + 0.5 else if a < 20 then bias - 0.5 else bias

/-- `_calculate_bmi` (lines 146–150): `None` when either measurement is missing
or zero (Python falsiness of `None` and `0`), otherwise
`weight_kg / (height_cm/100)^2`. -/
def calculate_bmi (height_cm weight_kg : Option ℚ) : Option ℚ :=
  match height_cm, weight_kg with
  | some h, some w => if h = 0 ∨ w = 0 then none else some (w / (h / 100) ^ 2)
  | _, _ => none

/-- `_global_bmi_effect` (lines 152–167). -/
def global_bmi_effect : Option ℚ → ℚ
  | none => 0
  | some bmi =>
    if bmi < 18.5 then 0.25
    else if bmi < 25 then 0
    else if bmi < 30 then 0.35
    else 0.6

/-- BMI category label (lines 213–222); the truthiness test `if bmi:` means a
zero BMI would receive no category. -/
def bmi_category_of : Option ℚ → Option String
  | none => none
  | some bmi =>
    if bmi = 0 then none
    else if bmi < 18.5 then some "Underweight"
    else if bmi < 25 then some "Normal"
    else if bmi < 30 then some "Overweight"
    else some "Obese"

/-- The symptom loop (lines 224–229): accumulate the weight of every listed
symptom found in the profile's weight table and count the matches.  A symptom
repeated in the input list is counted each time, as in the Python loop. -/
def symptom_contribution (symptom_weights : List (String × ℚ)) (symptoms : List String) : ℚ × ℕ :=
  symptoms.foldl
    (fun acc s =>
      match symptom_weights.lookup s with
      | some w => (acc.1 + w, acc.2 + 1)
      | none => acc)
    (0, 0)

/-- The logit `z` assembled by `predict_disease_probability`:
age-adjusted bias, plus the global BMI effect, plus the matched symptom
weights. -/
def score_logit (profile : DiseaseProfile) (symptoms : List String) (age : Option ℤ)
    (height_cm weight_kg : Option ℚ) : ℚ :=
  age_adjusted_bias profile.bias age
    + global_bmi_effect (calculate_bmi height_cm weight_kg)
    + (symptom_contribution profile.symptoms symptoms).1

/-- `DiseaseMLModel.sigmoid`: `1 / (1 + exp(-z))`. -/
noncomputable def sigmoid (z : ℝ) : ℝ := 1 / (1 + Real.exp (-z))

/-- `DiseaseMLModel.calibrated_sigmoid` with its fixed default temperature
`1.8`: `1 / (1 + exp(-(z / 1.8)))`. -/
noncomputable def calibrated_sigmoid (z : ℝ) : ℝ := 1 / (1 + Real.exp (-(z / 1.8)))

/-- The BMI summand of `_calculate_confidence` (line 253): `0.1` when the BMI
is present, nonzero (truthiness) and outside `[18.5, 30]`, else `0`. -/
def bmi_confidence_factor : Option ℚ → ℚ
  | none => 0
  | some bmi => if bmi ≠ 0 ∧ (bmi < 18.5 ∨ bmi > 30) then 0.1 else 0

/-- `_calculate_confidence` (lines 251–255). -/
noncomputable def calculate_confidence (num_symptoms : ℕ) (probability : ℝ)
    (bmi : Option ℚ) : ℝ :=
  min 1 ((num_symptoms : ℝ) / 5) * 0.5 + probability * 0.4 + (bmi_confidence_factor bmi : ℝ)

/-- The record returned by `predict_disease_probability` (lines 237–249).
The reported `bmi` keeps the exact value (the display rounding `round(bmi, 2)`
is presentational and not modelled; `None`-ness is preserved). -/
structure PredictionResult where
  disease : String
  raw_probability : ℝ
  calibrated_probability : ℝ
  prior_probability : ℝ
  likelihood : ℝ
  symptoms_matched : ℕ
  total_symptoms : ℕ
  confidence_score : ℝ
  bmi : Option ℚ
  bmi_category : Option String
  bmi_effect : ℚ

/-- The body of `predict_disease_probability` once the disease key is
resolved to its profile. -/
noncomputable def score_from_profile (disease : String) (profile : DiseaseProfile)
    (symptoms : List String) (age : Option ℤ) (height_cm weight_kg : Option ℚ) :
    PredictionResult :=
  let bmi := calculate_bmi height_cm weight_kg
  let z := score_logit profile symptoms age height_cm weight_kg
  let raw : ℝ := sigmoid (z : ℝ)
  { disease := disease
    raw_probability := raw
    calibrated_probability := calibrated_sigmoid (z : ℝ)
    prior_probability := min 0.95 (max 0.05 raw)
    likelihood := 0.75 + raw * 0.20
    symptoms_matched := (symptom_contribution profile.symptoms symptoms).2
    total_symptoms := symptoms.length
    confidence_score := calculate_confidence (symptom_contribution profile.symptoms symptoms).2 raw bmi
    bmi := Option.filter (fun b => b ≠ 0) bmi
    bmi_category := bmi_category_of bmi
    bmi_effect := global_bmi_effect bmi }

/-- `DiseaseMLModel.predict_disease_probability` (lines 189–249): resolve the
disease key (propagating its not-found error) and score the profile. -/
noncomputable def predict_disease_probability (disease : String) (symptoms : List String)
    (age : Option ℤ) (height_cm weight_kg : Option ℚ) :
    Except (String × String) PredictionResult :=
  (resolve_disease disease).map fun kp =>
    score_from_profile disease kp.2 symptoms age height_cm weight_kg

/-- One entry of the missing-symptom analysis (display name omitted: it is a
presentational re-rendering of the key). -/
structure MissingSymptom where
  key : String
  weight : ℚ
deriving DecidableEq

/-- `DiseaseMLModel.analyze_missing_symptoms` (lines 296–329): an unresolvable
disease name yields `[]`; otherwise the profile symptoms that are absent from
the input and weigh at least `0.75`, sorted by weight descending (stable),
truncated to 5. -/
def analyze_missing_symptoms (disease : String) (present_symptoms : List String) :
    List MissingSymptom :=
  match resolve_disease disease with
  | Except.error _ => []
  | Except.ok (_, profile) =>
    let missing :=
      (profile.symptoms.filter fun sw =>
          !(present_symptoms.contains sw.1) && decide ((0.75 : ℚ) ≤ sw.2)).map
        fun sw => MissingSymptom.mk sw.1 sw.2
    (missing.insertionSort fun a b => b.weight ≤ a.weight).take 5

/-- `bayesian_survival` from src/backend/utils/calculator.py (lines 3–30), the
strict calculator of the probability-table workflow (`load_data`): it rejects
any input outside `[0,1]` and a zero Bayes denominator with a `ValueError`,
and otherwise returns the exact posterior. -/
def bayesian_survival (prevalence sensitivity false_positive : ℚ) : Except String ℚ :=
  if ¬(0 ≤ prevalence ∧ prevalence ≤ 1) then
    Except.error "Prevalence must be between 0 and 1"
  else if ¬(0 ≤ sensitivity ∧ sensitivity ≤ 1) then
    Except.error "Sensitivity must be between 0 and 1"
  else if ¬(0 ≤ false_positive ∧ false_positive ≤ 1) then
    Except.error "False positive rate must be between 0 and 1"
  else
    let p_pos := sensitivity * prevalence + false_positive * (1 - prevalence)
    if p_pos = 0 then Except.error "Invalid inputs caused division by zero"
    else Except.ok (sensitivity * prevalence / p_pos)

/-- The record returned by `BayesCalculator.calculate_posterior`. -/
structure BayesianResult where
  prior : ℝ
  likelihood : ℝ
  posterior : ℝ
  false_positive_rate : ℝ

open Classical in
/-- `BayesCalculator.calculate_posterior` from src/backend/utils/calculator.py
(lines 78–117): strict validation of the three inputs against `[0,1]`
(raising `ValueError`), then the lenient Bayes computation in which a zero
denominator is coerced to posterior `0`. -/
noncomputable def calculate_posterior (prior likelihood false_positive_rate : ℝ) :
    Except String BayesianResult :=
  if ¬(0 ≤ prior ∧ prior ≤ 1) then
    Except.error "Prior probability must be between 0 and 1"
  else if ¬(0 ≤ likelihood ∧ likelihood ≤ 1) then
    Except.error "Likelihood must be between 0 and 1"
  else if ¬(0 ≤ false_positive_rate ∧ false_positive_rate ≤ 1) then
    Except.error "False positive rate must be between 0 and 1"
  else
    let numerator := likelihood * prior
    let denominator := numerator + false_positive_rate * (1 - prior)
    Except.ok
      ⟨prior, likelihood,
        if denominator = 0 then 0 else numerator / denominator,
        false_positive_rate⟩

/-- The record returned by `get_risk_level` in src/backend/routes/ml_routes.py
(lines 267–300). -/
structure RiskAssessment where
  level : String
  color : String
  description : String
deriving DecidableEq

/-- `get_risk_level` (ml_routes.py lines 267–300). -/
def get_risk_level (probability : ℚ) : RiskAssessment :=
  if probability < 30 then
    ⟨"Low", "success", "Low probability of disease"⟩
  else if probability < 60 then
    ⟨"Moderate", "warning", "Moderate probability - consider further testing"⟩
  else if probability < 85 then
    ⟨"High", "danger", "High probability - immediate medical consultation recommended"⟩
  else
    ⟨"Critical", "dark", "Critical risk level - urgent medical attention required"⟩

/-- The descending order in which Python's `fractional_parts.sort(reverse=True)`
arranges the `(fractional part, index)` pairs: larger fractional part first,
and among equal fractional parts the larger index first (tuples compare
lexicographically). -/
def frac_desc : ℚ × ℕ → ℚ × ℕ → Prop :=
  fun a b => b.1 < a.1 ∨ (a.1 = b.1 ∧ b.2 ≤ a.2)

instance : DecidableRel frac_desc := fun a b =>
  inferInstanceAs (Decidable (b.1 < a.1 ∨ (a.1 = b.1 ∧ b.2 ≤ a.2)))

instance : IsTotal (ℚ × ℕ) frac_desc where
  total a b := by
    rcases lt_trichotomy a.1 b.1 with h | h | h
    · exact Or.inr (Or.inl h)
    · rcases le_total a.2 b.2 with h2 | h2
      · exact Or.inr (Or.inr ⟨h.symm, h2⟩)
      · exact Or.inl (Or.inr ⟨h, h2⟩)
    · exact Or.inl (Or.inl h)

instance : IsTrans (ℚ × ℕ) frac_desc where
  trans a b c hab hbc := by
    rcases hab with h1 | ⟨h1, h1'⟩
    · rcases hbc with h2 | ⟨h2, h2'⟩
      · exact Or.inl (h2.trans h1)
      · exact Or.inl (h2 ▸ h1)
    · rcases hbc with h2 | ⟨h2, h2'⟩
      · exact Or.inl (h1 ▸ h2)
      · exact Or.inr ⟨h1.trans h2, h2'.trans h1'⟩

/-- `base[idx] += 1`: increment the list element at `idx` (no-op past the
end, which the reconciliation never does). -/
def incr_at : List ℕ → ℕ → List ℕ
  | [], _ => []
  | x :: xs, 0 => (x + 1) :: xs
  | x :: xs, i + 1 => x :: incr_at xs i

/-- `raw_percentages` of `get_real_dashboard_data`
(src/backend/routes/doctor_routes.py, line 70): the exact percentage of each
count relative to the total. -/
def raw_percentages (counts : List ℕ) : List ℚ :=
  counts.map fun (c : ℕ) => (c : ℚ) * 100 / (counts.sum : ℚ)

/-- `base_percentages` (line 71): `int(p)` truncation, which on these
non-negative values is the floor. -/
def base_percentages (counts : List ℕ) : List ℕ :=
  (raw_percentages counts).map fun p => (⌊p⌋).toNat

/-- `remainder = 100 - sum(base_percentages)` (line 72). -/
def percent_remainder (counts : List ℕ) : ℤ :=
  100 - ((base_percentages counts).sum : ℤ)

/-- `fractional_parts` (lines 76–78): the `(p - int(p), idx)` pairs. -/
def fractional_parts (counts : List ℕ) : List (ℚ × ℕ) :=
  (raw_percentages counts).enum.map fun ip => (ip.2 - (⌊ip.2⌋ : ℚ), ip.1)

/-- `fractional_parts.sort(reverse=True)` (line 80): Python sorts the pairs
descending lexicographically. -/
def sorted_fractional (counts : List ℕ) : List (ℚ × ℕ) :=
  (fractional_parts counts).insertionSort frac_desc

/-- The percentage reconciliation of `get_real_dashboard_data`
(src/backend/routes/doctor_routes.py, lines 62–87), over the four risk-level
counts with `total` their sum: floor the exact percentages, then hand the
leftover points one by one to the entries with the largest fractional parts
(Python's descending tuple sort), cycling via `i % len`; with a zero total
the route reports four zero percentages. -/
def reconcile_percentages (counts : List ℕ) : List ℕ :=
  if 0 < counts.sum then
    if 0 < percent_remainder counts then
      (List.range (percent_remainder counts).toNat).foldl
        (fun bp i =>
          incr_at bp ((sorted_fractional counts).getD (i % (sorted_fractional counts).length) (0, 0)).2)
        (base_percentages counts)
    else base_percentages counts
  else [0, 0, 0, 0]

/-- The ordering asserted by the specification's description of the
reconciliation: descending fractional part with ties broken by *ascending*
original index.  Written from the spec's words, to be compared with the
behaviour of `reconcile_percentages`. -/
def frac_desc_idx_asc : ℚ × ℕ → ℚ × ℕ → Prop :=
  fun a b => b.1 < a.1 ∨ (a.1 = b.1 ∧ a.2 ≤ b.2)

instance : DecidableRel frac_desc_idx_asc := fun a b =>
  inferInstanceAs (Decidable (b.1 < a.1 ∨ (a.1 = b.1 ∧ a.2 ≤ b.2)))

/-- Modelled from the spec's words (§4.5): the same largest-remainder
allocation as `reconcile_percentages`, but with ties between equal fractional
parts broken by ascending original index. -/
def reconcile_percentages_spec_asc (counts : List ℕ) : List ℕ :=
  let total := counts.sum
  if 0 < total then
    let raw_percentages : List ℚ := counts.map fun c => (c : ℚ) * 100 / (total : ℚ)
    let base_percentages : List ℕ := raw_percentages.map fun p => (⌊p⌋).toNat
    let remainder : ℤ := 100 - (base_percentages.sum : ℤ)
    if 0 < remainder then
      let fractional_parts : List (ℚ × ℕ) :=
        raw_percentages.enum.map fun ip => (ip.2 - (⌊ip.2⌋ : ℚ), ip.1)
      let sorted := fractional_parts.insertionSort frac_desc_idx_asc
      (List.range remainder.toNat).foldl
        (fun bp i => incr_at bp (sorted.getD (i % sorted.length) (0, 0)).2)
        base_percentages
    else base_percentages
  else [0, 0, 0, 0]

/-- The `diabetes` profile (first entry of the table), named for concrete
instantiations. -/
def diabetes_profile : DiseaseProfile :=
  ⟨[("increased_thirst", 0.85), ("frequent_urination", 0.9), ("extreme_hunger", 0.75),
    ("unexplained_weight_loss", 0.8), ("fatigue", 0.6), ("blurred_vision", 0.7),
    ("slow_healing_sores", 0.65), ("frequent_infections", 0.6), ("tingling_hands_feet", 0.7),
    ("darkened_skin", 0.55)], -2.5⟩

/-- The `asthma` profile, named for concrete instantiations. -/
def asthma_profile : DiseaseProfile :=
  ⟨[("shortness_breath", 0.9), ("chest_tightness", 0.85), ("wheezing", 0.95),
    ("coughing_at_night", 0.8)], -2.5⟩

/-- The `herniated_disc` profile, named for concrete instantiations. -/
def herniated_disc_profile : DiseaseProfile :=
  ⟨[("arm_leg_pain", 0.9), ("numbness", 0.85), ("weakness", 0.8)], -2.5⟩

/-- The `tendonitis` profile, named for concrete instantiations. -/
def tendonitis_profile : DiseaseProfile :=
  ⟨[("pain_tendon", 0.95), ("tenderness", 0.9), ("mild_swelling", 0.8)], -2.0⟩

/-- The `scoliosis` profile, named for concrete instantiations. -/
def scoliosis_profile : DiseaseProfile :=
  ⟨[("uneven_shoulders", 0.95), ("uneven_waist", 0.9), ("one_hip_higher", 0.9)], -2.5⟩

deriving instance DecidableEq for Except

/-! ## Basic facts about the sigmoid -/

theorem sigmoid_pos (z : ℝ) : 0 < sigmoid z := by
  unfold sigmoid
  positivity

theorem sigmoid_lt_one (z : ℝ) : sigmoid z < 1 := by
  unfold sigmoid
  rw [div_lt_one (by positivity)]
  linarith [Real.exp_pos (-z)]

theorem sigmoid_strictMono : StrictMono sigmoid := by
  intro a b hab
  unfold sigmoid
  apply one_div_lt_one_div_of_lt (by positivity)
  have := Real.exp_lt_exp.mpr (neg_lt_neg hab)
  linarith

theorem sigmoid_zero : sigmoid 0 = 1 / 2 := by
  unfold sigmoid
  rw [neg_zero, Real.exp_zero]
  norm_num

theorem sigmoid_lt_half_iff {z : ℝ} : sigmoid z < 1 / 2 ↔ z < 0 := by
  rw [← sigmoid_zero]
  exact sigmoid_strictMono.lt_iff_lt

theorem half_lt_sigmoid_iff {z : ℝ} : 1 / 2 < sigmoid z ↔ 0 < z := by
  rw [← sigmoid_zero]
  exact sigmoid_strictMono.lt_iff_lt

theorem sigmoid_eq_half_iff {z : ℝ} : sigmoid z = 1 / 2 ↔ z = 0 := by
  rw [← sigmoid_zero]
  exact sigmoid_strictMono.injective.eq_iff

theorem calibrated_sigmoid_eq (z : ℝ) : calibrated_sigmoid z = sigmoid (z / 1.8) := rfl

/-- Temperature scaling with temperature `1.8 > 1` moves any nonzero logit
strictly toward `0`, hence the calibrated probability strictly toward `1/2`. -/
theorem calibrated_closer_to_half {z : ℝ} (hz : z ≠ 0) :
    |calibrated_sigmoid z - 1 / 2| < |sigmoid z - 1 / 2| := by
  rw [calibrated_sigmoid_eq]
  rcases hz.lt_or_lt with h | h
  · have h1 : z < z / 1.8 := by
      have : 0 < (1 : ℝ) - 1 / 1.8 := by norm_num
      have := mul_pos (neg_pos.mpr h) this
      rw [div_eq_mul_inv]
      nlinarith
    have h2 : z / 1.8 < 0 := div_neg_of_neg_of_pos h (by norm_num)
    have hs1 : sigmoid z < sigmoid (z / 1.8) := sigmoid_strictMono h1
    have hs2 : sigmoid (z / 1.8) < 1 / 2 := sigmoid_lt_half_iff.mpr h2
    rw [abs_of_neg (by linarith), abs_of_neg (by linarith)]
    linarith
  · have h1 : z / 1.8 < z := by
      have : 0 < (1 : ℝ) - 1 / 1.8 := by norm_num
      have := mul_pos h this
      rw [div_eq_mul_inv]
      nlinarith
    have h2 : 0 < z / 1.8 := div_pos h (by norm_num)
    have hs1 : sigmoid (z / 1.8) < sigmoid z := sigmoid_strictMono h1
    have hs2 : 1 / 2 < sigmoid (z / 1.8) := half_lt_sigmoid_iff.mpr h2
    rw [abs_of_pos (by linarith), abs_of_pos (by linarith)]
    linarith

/-! ## Projections of `score_from_profile` -/

theorem score_raw (d : String) (p : DiseaseProfile) (s : List String) (a : Option ℤ)
    (h w : Option ℚ) :
    (score_from_profile d p s a h w).raw_probability =
      sigmoid ((score_logit p s a h w : ℚ) : ℝ) := rfl

theorem score_cal (d : String) (p : DiseaseProfile) (s : List String) (a : Option ℤ)
    (h w : Option ℚ) :
    (score_from_profile d p s a h w).calibrated_probability =
      calibrated_sigmoid ((score_logit p s a h w : ℚ) : ℝ) := rfl

theorem score_prior (d : String) (p : DiseaseProfile) (s : List String) (a : Option ℤ)
    (h w : Option ℚ) :
    (score_from_profile d p s a h w).prior_probability =
      min 0.95 (max 0.05 (sigmoid ((score_logit p s a h w : ℚ) : ℝ))) := rfl

theorem score_likelihood (d : String) (p : DiseaseProfile) (s : List String) (a : Option ℤ)
    (h w : Option ℚ) :
    (score_from_profile d p s a h w).likelihood =
      0.75 + sigmoid ((score_logit p s a h w : ℚ) : ℝ) * 0.20 := rfl

theorem score_confidence (d : String) (p : DiseaseProfile) (s : List String) (a : Option ℤ)
    (h w : Option ℚ) :
    (score_from_profile d p s a h w).confidence_score =
      calculate_confidence (symptom_contribution p.symptoms s).2
        (sigmoid ((score_logit p s a h w : ℚ) : ℝ)) (calculate_bmi h w) := rfl

theorem predict_ok (d : String) (kp : String × DiseaseProfile) (s : List String)
    (a : Option ℤ) (h w : Option ℚ) (hres : resolve_disease d = Except.ok kp) :
    predict_disease_probability d s a h w =
      Except.ok (score_from_profile d kp.2 s a h w) := by
  unfold predict_disease_probability
  rw [hres]
  rfl

/-! ## C4: risk-level thresholds -/

/-- C4: for every percentage `p`, `get_risk_level` returns `Low` iff `p < 30`,
`Moderate` iff `30 ≤ p < 60`, `High` iff `60 ≤ p < 85` and `Critical` iff
`85 ≤ p`; in particular the boundary inputs `30`, `60` and `85` map to
`Moderate`, `High` and `Critical`.  (The claim restricts `p` to `[0, 100]`;
the code satisfies the characterization for all `p`.) -/
theorem risk_level_thresholds (p : ℚ) :
    ((get_risk_level p).level = "Low" ↔ p < 30) ∧
    ((get_risk_level p).level = "Moderate" ↔ 30 ≤ p ∧ p < 60) ∧
    ((get_risk_level p).level = "High" ↔ 60 ≤ p ∧ p < 85) ∧
    ((get_risk_level p).level = "Critical" ↔ 85 ≤ p) ∧
    (get_risk_level 30).level = "Moderate" ∧
    (get_risk_level 60).level = "High" ∧
    (get_risk_level 85).level = "Critical" := by
  refine ⟨?_, ?_, ?_, ?_, by decide, by decide, by decide⟩ <;>
    · unfold get_risk_level
      split_ifs with h1 h2 h3 <;>
        first
          | exact iff_of_true rfl (by constructor <;> linarith)
          | exact iff_of_true rfl (by linarith)
          | exact iff_of_false (by decide) (by rintro ⟨ha, hb⟩ <;> linarith)
          | exact iff_of_false (by decide) (by intro hc <;> linarith)

/-! ## C3: the strict Bayes calculator -/

/-- Unfolding of `bayesian_survival` with its local `p_pos` inlined. -/
theorem bayesian_survival_def (prevalence sensitivity false_positive : ℚ) :
    bayesian_survival prevalence sensitivity false_positive =
      if ¬(0 ≤ prevalence ∧ prevalence ≤ 1) then
        Except.error "Prevalence must be between 0 and 1"
      else if ¬(0 ≤ sensitivity ∧ sensitivity ≤ 1) then
        Except.error "Sensitivity must be between 0 and 1"
      else if ¬(0 ≤ false_positive ∧ false_positive ≤ 1) then
        Except.error "False positive rate must be between 0 and 1"
      else if sensitivity * prevalence + false_positive * (1 - prevalence) = 0 then
        Except.error "Invalid inputs caused division by zero"
      else
        Except.ok (sensitivity * prevalence /
          (sensitivity * prevalence + false_positive * (1 - prevalence))) := rfl

/-- C3: `bayesian_survival` (the calculator invoked by the probability-table
workflow `load_data`) fails with a validation error whenever any of
prevalence / sensitivity / false-positive rate lies outside `[0, 1]` and
whenever the Bayes denominator is zero; otherwise it returns the exact
uncoerced posterior — it neither clamps inputs nor coerces the posterior
to `0`. -/
theorem bayesian_survival_strict_policy (prevalence sensitivity false_positive : ℚ) :
    ((¬(0 ≤ prevalence ∧ prevalence ≤ 1) ∨ ¬(0 ≤ sensitivity ∧ sensitivity ≤ 1) ∨
        ¬(0 ≤ false_positive ∧ false_positive ≤ 1)) →
      (bayesian_survival prevalence sensitivity false_positive).isOk = false) ∧
    (sensitivity * prevalence + false_positive * (1 - prevalence) = 0 →
      (bayesian_survival prevalence sensitivity false_positive).isOk = false) ∧
    ((0 ≤ prevalence ∧ prevalence ≤ 1) → (0 ≤ sensitivity ∧ sensitivity ≤ 1) →
      (0 ≤ false_positive ∧ false_positive ≤ 1) →
      sensitivity * prevalence + false_positive * (1 - prevalence) ≠ 0 →
      bayesian_survival prevalence sensitivity false_positive =
        Except.ok (sensitivity * prevalence /
          (sensitivity * prevalence + false_positive * (1 - prevalence)))) := by
  by_cases hp : 0 ≤ prevalence ∧ prevalence ≤ 1
  · by_cases hs : 0 ≤ sensitivity ∧ sensitivity ≤ 1
    · by_cases hf : 0 ≤ false_positive ∧ false_positive ≤ 1
      · by_cases hd : sensitivity * prevalence + false_positive * (1 - prevalence) = 0
        · rw [bayesian_survival_def, if_neg (not_not_intro hp), if_neg (not_not_intro hs),
            if_neg (not_not_intro hf), if_pos hd]
          refine ⟨?_, fun _ => rfl, fun _ _ _ hdn => absurd hd hdn⟩
          rintro (h | h | h)
          · exact absurd hp h
          · exact absurd hs h
          · exact absurd hf h
        · rw [bayesian_survival_def, if_neg (not_not_intro hp), if_neg (not_not_intro hs),
            if_neg (not_not_intro hf), if_neg hd]
          refine ⟨?_, fun h0 => absurd h0 hd, fun _ _ _ _ => rfl⟩
          rintro (h | h | h)
          · exact absurd hp h
          · exact absurd hs h
          · exact absurd hf h
      · rw [bayesian_survival_def, if_neg (not_not_intro hp), if_neg (not_not_intro hs), if_pos hf]
        exact ⟨fun _ => rfl, fun _ => rfl, fun _ _ hf2 _ => absurd hf2 hf⟩
    · rw [bayesian_survival_def, if_neg (not_not_intro hp), if_pos hs]
      exact ⟨fun _ => rfl, fun _ => rfl, fun _ hs2 _ _ => absurd hs2 hs⟩
  · rw [bayesian_survival_def, if_pos hp]
    exact ⟨fun _ => rfl, fun _ => rfl, fun hp2 _ _ _ => absurd hp2 hp⟩

/-- Witness for C3 at concrete inputs: an out-of-range prevalence fails, a
zero denominator with in-range inputs fails, and a regular input returns the
exact posterior `8/9`. -/
theorem bayesian_survival_strict_policy_witness :
    (bayesian_survival 2 0 0).isOk = false ∧
    (bayesian_survival 0.5 0 0).isOk = false ∧
    bayesian_survival 0.5 0.8 0.1 = Except.ok (8 / 9) := by
  refine ⟨(bayesian_survival_strict_policy 2 0 0).1 (Or.inl (by norm_num)),
    (bayesian_survival_strict_policy 0.5 0 0).2.1 (by norm_num),
    ((bayesian_survival_strict_policy 0.5 0.8 0.1).2.2 (by norm_num) (by norm_num)
        (by norm_num) (by norm_num)).trans ?_⟩
  norm_num

/-! ## C7: strict not-found resolution vs lenient missing-symptom fallback -/

/-- C7: disease-key resolution fails — with an error carrying the original
input and the normalized attempt — exactly when neither the normalized name
nor its underscore-stripped form matches a known key; scoring propagates this
failure, while the missing-symptom analysis instead returns `[]` for an
unresolvable name. -/
theorem disease_key_resolution_not_found (disease : String) (symptoms : List String)
    (age : Option ℤ) (height_cm weight_kg : Option ℚ) :
    (get_disease_key disease = Except.error (disease, normalizeKey disease) ↔
      disease_weights.lookup (normalizeKey disease) = none ∧
        ∀ kv ∈ disease_weights,
          stripUnderscores kv.1 ≠ stripUnderscores (normalizeKey disease)) ∧
    (∀ e, get_disease_key disease = Except.error e →
      e = (disease, normalizeKey disease) ∧
      predict_disease_probability disease symptoms age height_cm weight_kg = Except.error e ∧
      analyze_missing_symptoms disease symptoms = []) := by
  rcases hl : disease_weights.lookup (normalizeKey disease) with _ | p
  · rcases hf : disease_weights.find?
        (fun kv => stripUnderscores kv.1 == stripUnderscores (normalizeKey disease)) with _ | kv
    · have hres : resolve_disease disease = Except.error (disease, normalizeKey disease) := by
        simp only [resolve_disease, hl, hf]
      have hkey : get_disease_key disease = Except.error (disease, normalizeKey disease) := by
        unfold get_disease_key
        rw [hres]
        rfl
      refine ⟨iff_of_true hkey ⟨rfl, ?_⟩, ?_⟩
      · intro kv hm heq
        exact List.find?_eq_none.mp hf kv hm (by simpa using heq)
      · intro e he
        have he' : e = (disease, normalizeKey disease) := by
          rw [hkey] at he
          exact (Except.error.inj he).symm
        subst he'
        refine ⟨rfl, ?_, ?_⟩
        · unfold predict_disease_probability
          rw [hres]
          rfl
        · unfold analyze_missing_symptoms
          rw [hres]
    · have hres : resolve_disease disease = Except.ok kv := by
        simp only [resolve_disease, hl, hf]
      have hkey : get_disease_key disease = Except.ok kv.1 := by
        unfold get_disease_key
        rw [hres]
        rfl
      constructor
      · apply iff_of_false
        · rw [hkey]
          simp
        · rintro ⟨_, hall⟩
          have hmem := List.mem_of_find?_eq_some hf
          have hp := List.find?_some hf
          exact hall kv hmem (by simpa using hp)
      · intro e he
        rw [hkey] at he
        exact absurd he (by simp)
  · have hres : resolve_disease disease = Except.ok (normalizeKey disease, p) := by
      simp only [resolve_disease, hl]
    have hkey : get_disease_key disease = Except.ok (normalizeKey disease) := by
      unfold get_disease_key
      rw [hres]
      rfl
    constructor
    · apply iff_of_false
      · rw [hkey]
        simp
      · rintro ⟨hnone, _⟩
        exact Option.noConfusion hnone
    · intro e he
      rw [hkey] at he
      exact absurd he (by simp)

/-- Witness for C7 at the unresolvable name `"flu"`. -/
theorem disease_key_resolution_not_found_witness :
    get_disease_key "flu" = Except.error ("flu", "flu") ∧
    predict_disease_probability "flu" ["fever"] none none none =
      Except.error ("flu", "flu") ∧
    analyze_missing_symptoms "flu" ["fever"] = [] := by
  have hk : get_disease_key "flu" = Except.error ("flu", "flu") := by decide
  obtain ⟨-, hpred, hmiss⟩ :=
    (disease_key_resolution_not_found "flu" ["fever"] none none none).2 ("flu", "flu") hk
  exact ⟨hk, hpred, hmiss⟩

/-! ## Further projections and shared bounds -/

theorem score_bmi (d : String) (p : DiseaseProfile) (s : List String) (a : Option ℤ)
    (h w : Option ℚ) :
    (score_from_profile d p s a h w).bmi =
      Option.filter (fun b => b ≠ 0) (calculate_bmi h w) := rfl

theorem score_bmi_category (d : String) (p : DiseaseProfile) (s : List String) (a : Option ℤ)
    (h w : Option ℚ) :
    (score_from_profile d p s a h w).bmi_category =
      bmi_category_of (calculate_bmi h w) := rfl

theorem score_bmi_effect (d : String) (p : DiseaseProfile) (s : List String) (a : Option ℤ)
    (h w : Option ℚ) :
    (score_from_profile d p s a h w).bmi_effect =
      global_bmi_effect (calculate_bmi h w) := rfl

theorem bmi_confidence_factor_bounds (bmi : Option ℚ) :
    0 ≤ bmi_confidence_factor bmi ∧ bmi_confidence_factor bmi ≤ 0.1 := by
  cases bmi with
  | none =>
    refine ⟨le_refl _, ?_⟩
    show (0 : ℚ) ≤ 0.1
    norm_num
  | some b =>
    show 0 ≤ (if b ≠ 0 ∧ (b < 18.5 ∨ b > 30) then (0.1 : ℚ) else 0) ∧
      (if b ≠ 0 ∧ (b < 18.5 ∨ b > 30) then (0.1 : ℚ) else 0) ≤ 0.1
    split_ifs
    · exact ⟨by norm_num, le_refl _⟩
    · exact ⟨le_refl _, by norm_num⟩

theorem confidence_bounds (n : ℕ) (p : ℝ) (bmi : Option ℚ)
    (hp0 : 0 ≤ p) (hp1 : p < 1) :
    0 ≤ calculate_confidence n p bmi ∧ calculate_confidence n p bmi ≤ 1 := by
  obtain ⟨hb0, hb1⟩ := bmi_confidence_factor_bounds bmi
  have hb0' : (0 : ℝ) ≤ (bmi_confidence_factor bmi : ℝ) := by exact_mod_cast hb0
  have hb1' : ((bmi_confidence_factor bmi : ℝ)) ≤ 0.1 := by
    rw [show (0.1 : ℝ) = ((0.1 : ℚ) : ℝ) by norm_num]
    exact_mod_cast hb1
  unfold calculate_confidence
  have hmin0 : 0 ≤ min 1 ((n : ℝ) / 5) := le_min (by norm_num) (by positivity)
  have hmin1 : min 1 ((n : ℝ) / 5) ≤ 1 := min_le_left _ _
  constructor <;> nlinarith

/-! ## C6: all probability-valued fields of a scoring result lie in `[0, 1]` -/

/-- C6: for every resolvable disease and any symptom set and demographics,
the five numeric fields of the scoring result lie in `[0, 1]`; more precisely
the prior is clamped to `[0.05, 0.95]`, the likelihood lies in `[0.75, 0.95]`,
and the confidence score cannot exceed `1`. -/
theorem predict_fields_in_unit_interval
    (disease : String) (kp : String × DiseaseProfile) (symptoms : List String)
    (age : Option ℤ) (height_cm weight_kg : Option ℚ)
    (hres : resolve_disease disease = Except.ok kp) :
    predict_disease_probability disease symptoms age height_cm weight_kg =
      Except.ok (score_from_profile disease kp.2 symptoms age height_cm weight_kg) ∧
    (0 ≤ (score_from_profile disease kp.2 symptoms age height_cm weight_kg).raw_probability ∧
      (score_from_profile disease kp.2 symptoms age height_cm weight_kg).raw_probability ≤ 1) ∧
    (0 ≤ (score_from_profile disease kp.2 symptoms age height_cm weight_kg).calibrated_probability ∧
      (score_from_profile disease kp.2 symptoms age height_cm weight_kg).calibrated_probability ≤ 1) ∧
    (0.05 ≤ (score_from_profile disease kp.2 symptoms age height_cm weight_kg).prior_probability ∧
      (score_from_profile disease kp.2 symptoms age height_cm weight_kg).prior_probability ≤ 0.95) ∧
    (0.75 ≤ (score_from_profile disease kp.2 symptoms age height_cm weight_kg).likelihood ∧
      (score_from_profile disease kp.2 symptoms age height_cm weight_kg).likelihood ≤ 0.95) ∧
    (0 ≤ (score_from_profile disease kp.2 symptoms age height_cm weight_kg).confidence_score ∧
      (score_from_profile disease kp.2 symptoms age height_cm weight_kg).confidence_score ≤ 1) := by
  refine ⟨predict_ok _ _ _ _ _ _ hres, ?_, ?_, ?_, ?_, ?_⟩
  · rw [score_raw]
    exact ⟨(sigmoid_pos _).le, (sigmoid_lt_one _).le⟩
  · rw [score_cal, calibrated_sigmoid_eq]
    exact ⟨(sigmoid_pos _).le, (sigmoid_lt_one _).le⟩
  · rw [score_prior]
    exact ⟨le_min (by norm_num) (le_max_left _ _), min_le_left _ _⟩
  · rw [score_likelihood]
    constructor
    · nlinarith [sigmoid_pos ((score_logit kp.2 symptoms age height_cm weight_kg : ℚ) : ℝ)]
    · nlinarith [sigmoid_lt_one ((score_logit kp.2 symptoms age height_cm weight_kg : ℚ) : ℝ)]
  · rw [score_confidence]
    exact confidence_bounds _ _ _ (sigmoid_pos _).le (sigmoid_lt_one _)

/-- Witness for C6 at a concrete scoring call (`asthma`, one matched symptom,
age 30, height 170 cm, weight 70 kg). -/
theorem predict_fields_in_unit_interval_witness :
    predict_disease_probability "asthma" ["wheezing"] (some 30) (some 170) (some 70) =
      Except.ok (score_from_profile "asthma" asthma_profile ["wheezing"] (some 30) (some 170) (some 70)) ∧
    (0 ≤ (score_from_profile "asthma" asthma_profile ["wheezing"] (some 30) (some 170) (some 70)).raw_probability ∧
      (score_from_profile "asthma" asthma_profile ["wheezing"] (some 30) (some 170) (some 70)).raw_probability ≤ 1) ∧
    (0 ≤ (score_from_profile "asthma" asthma_profile ["wheezing"] (some 30) (some 170) (some 70)).calibrated_probability ∧
      (score_from_profile "asthma" asthma_profile ["wheezing"] (some 30) (some 170) (some 70)).calibrated_probability ≤ 1) ∧
    (0.05 ≤ (score_from_profile "asthma" asthma_profile ["wheezing"] (some 30) (some 170) (some 70)).prior_probability ∧
      (score_from_profile "asthma" asthma_profile ["wheezing"] (some 30) (some 170) (some 70)).prior_probability ≤ 0.95) ∧
    (0.75 ≤ (score_from_profile "asthma" asthma_profile ["wheezing"] (some 30) (some 170) (some 70)).likelihood ∧
      (score_from_profile "asthma" asthma_profile ["wheezing"] (some 30) (some 170) (some 70)).likelihood ≤ 0.95) ∧
    (0 ≤ (score_from_profile "asthma" asthma_profile ["wheezing"] (some 30) (some 170) (some 70)).confidence_score ∧
      (score_from_profile "asthma" asthma_profile ["wheezing"] (some 30) (some 170) (some 70)).confidence_score ≤ 1) :=
  predict_fields_in_unit_interval "asthma" ("asthma", asthma_profile) ["wheezing"]
    (some 30) (some 170) (some 70) (by decide)

/-! ## C5: calibration moves every probability strictly toward the center -/

/-- C5: for every resolvable scoring input, whenever the raw probability is
not `1/2`, the calibrated probability (same logit, temperature `1.8`) is
strictly closer to `1/2` than the raw probability. -/
theorem predict_calibrated_closer_to_center
    (disease : String) (kp : String × DiseaseProfile) (symptoms : List String)
    (age : Option ℤ) (height_cm weight_kg : Option ℚ)
    (hres : resolve_disease disease = Except.ok kp) :
    predict_disease_probability disease symptoms age height_cm weight_kg =
      Except.ok (score_from_profile disease kp.2 symptoms age height_cm weight_kg) ∧
    ((score_from_profile disease kp.2 symptoms age height_cm weight_kg).raw_probability ≠ 1 / 2 →
      |(score_from_profile disease kp.2 symptoms age height_cm weight_kg).calibrated_probability - 1 / 2| <
        |(score_from_profile disease kp.2 symptoms age height_cm weight_kg).raw_probability - 1 / 2|) := by
  refine ⟨predict_ok _ _ _ _ _ _ hres, ?_⟩
  intro hraw
  rw [score_cal, score_raw]
  apply calibrated_closer_to_half
  rw [score_raw] at hraw
  intro h0
  exact hraw (by rw [h0, sigmoid_zero])

/-- Witness for C5 at a concrete scoring call (`herniated_disc`, one matched
symptom, logit `-1.65 ≠ 0`). -/
theorem predict_calibrated_closer_to_center_witness :
    |(score_from_profile "herniated_disc" herniated_disc_profile ["numbness"] none none none).calibrated_probability - 1 / 2| <
      |(score_from_profile "herniated_disc" herniated_disc_profile ["numbness"] none none none).raw_probability - 1 / 2| := by
  refine (predict_calibrated_closer_to_center "herniated_disc"
    ("herniated_disc", herniated_disc_profile) ["numbness"] none none none (by decide)).2 ?_
  rw [score_raw]
  intro h
  have hz := sigmoid_eq_half_iff.mp h
  have hq : (score_logit herniated_disc_profile ["numbness"] none none none : ℚ) = 0 := by
    exact_mod_cast hz
  exact absurd hq (by decide)

/-! ## C8: age 60 scores strictly higher than age 15 -/

/-- C8: for every resolvable disease, symptom set and fixed measurements,
scoring with age 60 yields a strictly higher raw probability than the
identical call with age 15 (the logit differs by exactly `+1`, and the
sigmoid is strictly increasing). -/
theorem raw_probability_age_monotone
    (disease : String) (kp : String × DiseaseProfile) (symptoms : List String)
    (height_cm weight_kg : Option ℚ)
    (hres : resolve_disease disease = Except.ok kp) :
    predict_disease_probability disease symptoms (some 60) height_cm weight_kg =
      Except.ok (score_from_profile disease kp.2 symptoms (some 60) height_cm weight_kg) ∧
    predict_disease_probability disease symptoms (some 15) height_cm weight_kg =
      Except.ok (score_from_profile disease kp.2 symptoms (some 15) height_cm weight_kg) ∧
    (score_from_profile disease kp.2 symptoms (some 15) height_cm weight_kg).raw_probability <
      (score_from_profile disease kp.2 symptoms (some 60) height_cm weight_kg).raw_probability := by
  refine ⟨predict_ok _ _ _ _ _ _ hres, predict_ok _ _ _ _ _ _ hres, ?_⟩
  rw [score_raw, score_raw]
  apply sigmoid_strictMono
  have hq : score_logit kp.2 symptoms (some 15) height_cm weight_kg <
      score_logit kp.2 symptoms (some 60) height_cm weight_kg := by
    unfold score_logit age_adjusted_bias
    norm_num
    linarith
  exact_mod_cast hq

/-- Witness for C8: the claim's own example, `diabetes` with
`increased_thirst` and `frequent_urination`. -/
theorem raw_probability_age_monotone_witness :
    (score_from_profile "diabetes" diabetes_profile
        ["increased_thirst", "frequent_urination"] (some 15) none none).raw_probability <
      (score_from_profile "diabetes" diabetes_profile
        ["increased_thirst", "frequent_urination"] (some 60) none none).raw_probability :=
  (raw_probability_age_monotone "diabetes" ("diabetes", diabetes_profile)
    ["increased_thirst", "frequent_urination"] none none (by decide)).2.2

/-! ## C9: the scoring → posterior pipeline never hits the zero denominator -/

open Classical in
/-- Unfolding of `calculate_posterior` with its local bindings inlined. -/
theorem calculate_posterior_def (prior likelihood false_positive_rate : ℝ) :
    calculate_posterior prior likelihood false_positive_rate =
      if ¬(0 ≤ prior ∧ prior ≤ 1) then
        Except.error "Prior probability must be between 0 and 1"
      else if ¬(0 ≤ likelihood ∧ likelihood ≤ 1) then
        Except.error "Likelihood must be between 0 and 1"
      else if ¬(0 ≤ false_positive_rate ∧ false_positive_rate ≤ 1) then
        Except.error "False positive rate must be between 0 and 1"
      else
        Except.ok ⟨prior, likelihood,
          if likelihood * prior + false_positive_rate * (1 - prior) = 0 then 0
          else likelihood * prior / (likelihood * prior + false_positive_rate * (1 - prior)),
          false_positive_rate⟩ := rfl

/-- C9: every scoring result has its prior in `[0.05, 0.95]` and likelihood in
`[0.75, 0.95]`, so feeding it to the lenient `calculate_posterior` with
false-positive rate `0.05` gives a strictly positive Bayes denominator: the
zero-denominator branch is unreachable in the score→posterior pipeline and
the resulting posterior lies in `(0, 1]`. -/
theorem scoring_posterior_safe
    (disease : String) (kp : String × DiseaseProfile) (symptoms : List String)
    (age : Option ℤ) (height_cm weight_kg : Option ℚ)
    (hres : resolve_disease disease = Except.ok kp) :
    predict_disease_probability disease symptoms age height_cm weight_kg =
      Except.ok (score_from_profile disease kp.2 symptoms age height_cm weight_kg) ∧
    (score_from_profile disease kp.2 symptoms age height_cm weight_kg).likelihood *
        (score_from_profile disease kp.2 symptoms age height_cm weight_kg).prior_probability +
        0.05 * (1 - (score_from_profile disease kp.2 symptoms age height_cm weight_kg).prior_probability) ≠ 0 ∧
    calculate_posterior
        (score_from_profile disease kp.2 symptoms age height_cm weight_kg).prior_probability
        (score_from_profile disease kp.2 symptoms age height_cm weight_kg).likelihood 0.05 =
      Except.ok ⟨(score_from_profile disease kp.2 symptoms age height_cm weight_kg).prior_probability,
        (score_from_profile disease kp.2 symptoms age height_cm weight_kg).likelihood,
        (score_from_profile disease kp.2 symptoms age height_cm weight_kg).likelihood *
            (score_from_profile disease kp.2 symptoms age height_cm weight_kg).prior_probability /
          ((score_from_profile disease kp.2 symptoms age height_cm weight_kg).likelihood *
              (score_from_profile disease kp.2 symptoms age height_cm weight_kg).prior_probability +
            0.05 * (1 - (score_from_profile disease kp.2 symptoms age height_cm weight_kg).prior_probability)),
        0.05⟩ ∧
    0 < (score_from_profile disease kp.2 symptoms age height_cm weight_kg).likelihood *
          (score_from_profile disease kp.2 symptoms age height_cm weight_kg).prior_probability /
        ((score_from_profile disease kp.2 symptoms age height_cm weight_kg).likelihood *
            (score_from_profile disease kp.2 symptoms age height_cm weight_kg).prior_probability +
          0.05 * (1 - (score_from_profile disease kp.2 symptoms age height_cm weight_kg).prior_probability)) ∧
    (score_from_profile disease kp.2 symptoms age height_cm weight_kg).likelihood *
          (score_from_profile disease kp.2 symptoms age height_cm weight_kg).prior_probability /
        ((score_from_profile disease kp.2 symptoms age height_cm weight_kg).likelihood *
            (score_from_profile disease kp.2 symptoms age height_cm weight_kg).prior_probability +
          0.05 * (1 - (score_from_profile disease kp.2 symptoms age height_cm weight_kg).prior_probability)) ≤ 1 := by
  have hP1 : 0.05 ≤ (score_from_profile disease kp.2 symptoms age height_cm weight_kg).prior_probability := by
    rw [score_prior]
    exact le_min (by norm_num) (le_max_left _ _)
  have hP2 : (score_from_profile disease kp.2 symptoms age height_cm weight_kg).prior_probability ≤ 0.95 := by
    rw [score_prior]
    exact min_le_left _ _
  have hL1 : 0.75 ≤ (score_from_profile disease kp.2 symptoms age height_cm weight_kg).likelihood := by
    rw [score_likelihood]
    nlinarith [sigmoid_pos ((score_logit kp.2 symptoms age height_cm weight_kg : ℚ) : ℝ)]
  have hL2 : (score_from_profile disease kp.2 symptoms age height_cm weight_kg).likelihood ≤ 0.95 := by
    rw [score_likelihood]
    nlinarith [sigmoid_lt_one ((score_logit kp.2 symptoms age height_cm weight_kg : ℚ) : ℝ)]
  have hD : 0 < (score_from_profile disease kp.2 symptoms age height_cm weight_kg).likelihood *
      (score_from_profile disease kp.2 symptoms age height_cm weight_kg).prior_probability +
      0.05 * (1 - (score_from_profile disease kp.2 symptoms age height_cm weight_kg).prior_probability) := by
    nlinarith
  refine ⟨predict_ok _ _ _ _ _ _ hres, hD.ne', ?_, div_pos (by nlinarith) hD,
    (div_le_one hD).mpr (by nlinarith)⟩
  rw [calculate_posterior_def,
    if_neg (not_not_intro ⟨by linarith, by linarith⟩),
    if_neg (not_not_intro ⟨by linarith, by linarith⟩),
    if_neg (not_not_intro ⟨by norm_num, by norm_num⟩),
    if_neg hD.ne']

/-- Witness for C9 at a concrete scoring call (`tendonitis`, one matched
symptom). -/
theorem scoring_posterior_safe_witness :
    predict_disease_probability "tendonitis" ["tenderness"] none none none =
      Except.ok (score_from_profile "tendonitis" tendonitis_profile ["tenderness"] none none none) ∧
    (score_from_profile "tendonitis" tendonitis_profile ["tenderness"] none none none).likelihood *
        (score_from_profile "tendonitis" tendonitis_profile ["tenderness"] none none none).prior_probability +
        0.05 * (1 - (score_from_profile "tendonitis" tendonitis_profile ["tenderness"] none none none).prior_probability) ≠ 0 ∧
    calculate_posterior
        (score_from_profile "tendonitis" tendonitis_profile ["tenderness"] none none none).prior_probability
        (score_from_profile "tendonitis" tendonitis_profile ["tenderness"] none none none).likelihood 0.05 =
      Except.ok ⟨(score_from_profile "tendonitis" tendonitis_profile ["tenderness"] none none none).prior_probability,
        (score_from_profile "tendonitis" tendonitis_profile ["tenderness"] none none none).likelihood,
        (score_from_profile "tendonitis" tendonitis_profile ["tenderness"] none none none).likelihood *
            (score_from_profile "tendonitis" tendonitis_profile ["tenderness"] none none none).prior_probability /
          ((score_from_profile "tendonitis" tendonitis_profile ["tenderness"] none none none).likelihood *
              (score_from_profile "tendonitis" tendonitis_profile ["tenderness"] none none none).prior_probability +
            0.05 * (1 - (score_from_profile "tendonitis" tendonitis_profile ["tenderness"] none none none).prior_probability)),
        0.05⟩ ∧
    0 < (score_from_profile "tendonitis" tendonitis_profile ["tenderness"] none none none).likelihood *
          (score_from_profile "tendonitis" tendonitis_profile ["tenderness"] none none none).prior_probability /
        ((score_from_profile "tendonitis" tendonitis_profile ["tenderness"] none none none).likelihood *
            (score_from_profile "tendonitis" tendonitis_profile ["tenderness"] none none none).prior_probability +
          0.05 * (1 - (score_from_profile "tendonitis" tendonitis_profile ["tenderness"] none none none).prior_probability)) ∧
    (score_from_profile "tendonitis" tendonitis_profile ["tenderness"] none none none).likelihood *
          (score_from_profile "tendonitis" tendonitis_profile ["tenderness"] none none none).prior_probability /
        ((score_from_profile "tendonitis" tendonitis_profile ["tenderness"] none none none).likelihood *
            (score_from_profile "tendonitis" tendonitis_profile ["tenderness"] none none none).prior_probability +
          0.05 * (1 - (score_from_profile "tendonitis" tendonitis_profile ["tenderness"] none none none).prior_probability)) ≤ 1 :=
  scoring_posterior_safe "tendonitis" ("tendonitis", tendonitis_profile) ["tenderness"]
    none none none (by decide)

/-! ## C10: scoring is total in the demographic inputs -/

/-- C10: when either measurement is missing or zero, the BMI is undefined, no
division is attempted (`calculate_bmi` takes its guard branch), the BMI effect
on the logit is `0`, the BMI category is absent, and scoring still returns a
result — height `0` never produces a division-by-zero failure. -/
theorem scoring_total_in_demographics
    (disease : String) (kp : String × DiseaseProfile) (symptoms : List String)
    (age : Option ℤ) (height_cm weight_kg : Option ℚ)
    (hres : resolve_disease disease = Except.ok kp)
    (hdeg : height_cm = none ∨ height_cm = some 0 ∨ weight_kg = none ∨ weight_kg = some 0) :
    calculate_bmi height_cm weight_kg = none ∧
    global_bmi_effect (calculate_bmi height_cm weight_kg) = 0 ∧
    predict_disease_probability disease symptoms age height_cm weight_kg =
      Except.ok (score_from_profile disease kp.2 symptoms age height_cm weight_kg) ∧
    (score_from_profile disease kp.2 symptoms age height_cm weight_kg).bmi = none ∧
    (score_from_profile disease kp.2 symptoms age height_cm weight_kg).bmi_category = none ∧
    (score_from_profile disease kp.2 symptoms age height_cm weight_kg).bmi_effect = 0 := by
  have hb : calculate_bmi height_cm weight_kg = none := by
    rcases hdeg with rfl | rfl | rfl | rfl
    · cases weight_kg <;> rfl
    · cases weight_kg with
      | none => rfl
      | some w => simp [calculate_bmi]
    · cases height_cm <;> rfl
    · cases height_cm with
      | none => rfl
      | some h => simp [calculate_bmi]
  refine ⟨hb, by rw [hb]; rfl, predict_ok _ _ _ _ _ _ hres, ?_, ?_, ?_⟩
  · rw [score_bmi, hb]
    rfl
  · rw [score_bmi_category, hb]
    rfl
  · rw [score_bmi_effect, hb]
    rfl

/-- Witness for C10 at a concrete scoring call (`scoliosis`, height `0`). -/
theorem scoring_total_in_demographics_witness :
    calculate_bmi (some 0) (some 70) = none ∧
    global_bmi_effect (calculate_bmi (some 0) (some 70)) = 0 ∧
    predict_disease_probability "scoliosis" ["uneven_waist"] (some 40) (some 0) (some 70) =
      Except.ok (score_from_profile "scoliosis" scoliosis_profile ["uneven_waist"] (some 40) (some 0) (some 70)) ∧
    (score_from_profile "scoliosis" scoliosis_profile ["uneven_waist"] (some 40) (some 0) (some 70)).bmi = none ∧
    (score_from_profile "scoliosis" scoliosis_profile ["uneven_waist"] (some 40) (some 0) (some 70)).bmi_category = none ∧
    (score_from_profile "scoliosis" scoliosis_profile ["uneven_waist"] (some 40) (some 0) (some 70)).bmi_effect = 0 :=
  scoring_total_in_demographics "scoliosis" ("scoliosis", scoliosis_profile) ["uneven_waist"]
    (some 40) (some 0) (some 70) (by decide) (Or.inr (Or.inl rfl))

/-! ## Facts about the percentage reconciliation -/

theorem incr_at_length (l : List ℕ) (i : ℕ) : (incr_at l i).length = l.length := by
  induction l generalizing i with
  | nil => rfl
  | cons x xs ih =>
    cases i with
    | zero => rfl
    | succ n => simpa [incr_at] using ih n

theorem incr_at_sum (l : List ℕ) (i : ℕ) (h : i < l.length) :
    (incr_at l i).sum = l.sum + 1 := by
  induction l generalizing i with
  | nil => simp at h
  | cons x xs ih =>
    cases i with
    | zero =>
      simp [incr_at, List.sum_cons]
      omega
    | succ n =>
      have hn : n < xs.length := by simpa using h
      simp [incr_at, List.sum_cons, ih n hn]
      omega

theorem incr_at_getD (l : List ℕ) (i j : ℕ) :
    (incr_at l i).getD j 0 = l.getD j 0 + (if i = j ∧ j < l.length then 1 else 0) := by
  induction l generalizing i j with
  | nil => simp [incr_at]
  | cons x xs ih =>
    cases i with
    | zero =>
      cases j with
      | zero => simp [incr_at]
      | succ m => simp [incr_at]
    | succ n =>
      cases j with
      | zero => simp [incr_at]
      | succ m =>
        have h2 := ih n m
        rw [show incr_at (x :: xs) (n + 1) = x :: incr_at xs n from rfl,
          List.getD_cons_succ, List.getD_cons_succ, h2, List.length_cons]
        by_cases hc : n = m ∧ m < xs.length
        · rw [if_pos hc, if_pos (show n + 1 = m + 1 ∧ m + 1 < xs.length + 1 by omega)]
        · rw [if_neg hc, if_neg (show ¬(n + 1 = m + 1 ∧ m + 1 < xs.length + 1) by omega)]

theorem fold_incr_sum_length (g : ℕ → ℕ) (n : ℕ) (hg : ∀ i, g i < n) (r : ℕ) :
    ∀ bp : List ℕ, bp.length = n →
      (((List.range r).foldl (fun x i => incr_at x (g i)) bp).length = n ∧
        ((List.range r).foldl (fun x i => incr_at x (g i)) bp).sum = bp.sum + r) := by
  induction r with
  | zero =>
    intro bp h
    exact ⟨by simpa using h, by simp⟩
  | succ m ih =>
    intro bp h
    obtain ⟨hlen, hsum⟩ := ih bp h
    rw [List.range_succ, List.foldl_append]
    refine ⟨?_, ?_⟩
    · simp only [List.foldl_cons, List.foldl_nil]
      rw [incr_at_length]
      exact hlen
    · simp only [List.foldl_cons, List.foldl_nil]
      rw [incr_at_sum _ _ (by rw [hlen]; exact hg m), hsum]
      omega

theorem floor_toNat_sum_le (l : List ℚ) (h : ∀ p ∈ l, 0 ≤ p) :
    (((l.map fun p => (⌊p⌋).toNat).sum : ℕ) : ℚ) ≤ l.sum := by
  induction l with
  | nil => simp
  | cons p xs ih =>
    have hp : 0 ≤ p := h p (by simp)
    have h1 : ((⌊p⌋.toNat : ℕ) : ℚ) ≤ p := by
      rw [show ((⌊p⌋.toNat : ℕ) : ℚ) = ((⌊p⌋.toNat : ℤ) : ℚ) by push_cast; ring,
        Int.toNat_of_nonneg (Int.floor_nonneg.mpr hp)]
      exact Int.floor_le p
    have h2 := ih fun q hq => h q (by simp [hq])
    simp only [List.map_cons, List.sum_cons]
    push_cast at h2 ⊢
    linarith

theorem floor_toNat_sum_gt : ∀ (l : List ℚ), l ≠ [] → (∀ p ∈ l, 0 ≤ p) →
    l.sum - l.length < (((l.map fun p => (⌊p⌋).toNat).sum : ℕ) : ℚ)
  | [], hne, _ => absurd rfl hne
  | p :: xs, _, h => by
    have hp : 0 ≤ p := h p (by simp)
    have h1 : p - 1 < ((⌊p⌋.toNat : ℕ) : ℚ) := by
      rw [show ((⌊p⌋.toNat : ℕ) : ℚ) = ((⌊p⌋.toNat : ℤ) : ℚ) by push_cast; ring,
        Int.toNat_of_nonneg (Int.floor_nonneg.mpr hp)]
      exact Int.sub_one_lt_floor p
    cases xs with
    | nil => simpa using h1
    | cons q ys =>
      have h2 := floor_toNat_sum_gt (q :: ys) (by simp) fun r hr => h r (by simp [hr])
      simp only [List.map_cons, List.sum_cons, List.length_cons] at h2 ⊢
      push_cast at h2 ⊢
      linarith

theorem raw_percentages_sum (counts : List ℕ) (h : counts.sum ≠ 0) :
    (raw_percentages counts).sum = 100 := by
  have H : ∀ (T : ℚ) (l : List ℕ),
      (l.map fun (c : ℕ) => (c : ℚ) * 100 / T).sum = ((l.sum : ℕ) : ℚ) * 100 / T := by
    intro T l
    induction l with
    | nil => simp
    | cons x xs ih =>
      simp only [List.map_cons, List.sum_cons, ih]
      push_cast
      ring
  unfold raw_percentages
  rw [H]
  have hne : ((counts.sum : ℕ) : ℚ) ≠ 0 := Nat.cast_ne_zero.mpr h
  rw [mul_comm, mul_div_assoc, div_self hne, mul_one]

theorem raw_percentages_nonneg (counts : List ℕ) : ∀ p ∈ raw_percentages counts, 0 ≤ p := by
  intro p hp
  unfold raw_percentages at hp
  obtain ⟨c, hc, rfl⟩ := List.mem_map.mp hp
  positivity

theorem raw_percentages_length (counts : List ℕ) :
    (raw_percentages counts).length = counts.length := by
  simp [raw_percentages]

theorem base_sum_le_100 (counts : List ℕ) (h : counts.sum ≠ 0) :
    (base_percentages counts).sum ≤ 100 := by
  have h1 := floor_toNat_sum_le (raw_percentages counts) (raw_percentages_nonneg counts)
  rw [raw_percentages_sum counts h] at h1
  have : ((base_percentages counts).sum : ℚ) ≤ 100 := h1
  exact_mod_cast this

theorem base_sum_ge_97 (counts : List ℕ) (h : counts.sum ≠ 0) (hlen : counts.length = 4) :
    97 ≤ (base_percentages counts).sum := by
  have hne' : raw_percentages counts ≠ [] := by
    apply List.ne_nil_of_length_pos
    rw [raw_percentages_length, hlen]
    norm_num
  have hgt := floor_toNat_sum_gt (raw_percentages counts) hne' (raw_percentages_nonneg counts)
  rw [raw_percentages_sum counts h, raw_percentages_length, hlen,
    show ((raw_percentages counts).map fun p => (⌊p⌋).toNat) = base_percentages counts
      from rfl] at hgt
  have h3 : 96 < (base_percentages counts).sum := by
    have hq : (96 : ℚ) < ((base_percentages counts).sum : ℚ) := by
      rw [show ((4 : ℕ) : ℚ) = 4 from by norm_num] at hgt
      linarith
    exact_mod_cast hq
  omega

theorem sorted_fractional_length (counts : List ℕ) :
    (sorted_fractional counts).length = counts.length := by
  simp [sorted_fractional, fractional_parts, raw_percentages]

theorem mem_sorted_fractional_snd_lt (counts : List ℕ) {x : ℚ × ℕ}
    (hx : x ∈ sorted_fractional counts) : x.2 < counts.length := by
  unfold sorted_fractional at hx
  rw [List.mem_insertionSort] at hx
  unfold fractional_parts at hx
  obtain ⟨ip, hip, rfl⟩ := List.mem_map.mp hx
  have := List.fst_lt_of_mem_enum hip
  simpa [raw_percentages] using this

theorem sorted_getD_snd_lt (counts : List ℕ) (hne : counts ≠ []) (i : ℕ) :
    ((sorted_fractional counts).getD (i % (sorted_fractional counts).length) (0, 0)).2 <
      counts.length := by
  have hlen : (sorted_fractional counts).length = counts.length := sorted_fractional_length counts
  have hpos : 0 < (sorted_fractional counts).length := by
    rw [hlen]
    exact List.length_pos.mpr hne
  have hmod : i % (sorted_fractional counts).length < (sorted_fractional counts).length :=
    Nat.mod_lt _ hpos
  rw [List.getD_eq_getElem _ _ hmod]
  exact mem_sorted_fractional_snd_lt counts (List.getElem_mem hmod)

/-! ## C1: the reconciled percentages sum to exactly 100 -/

/-- C1: for any four non-negative counts with positive total the reconciled
integer percentages sum to exactly 100, and a zero total yields four zeros. -/
theorem reconcile_percentages_sum (a b c d : ℕ) :
    (0 < a + b + c + d → (reconcile_percentages [a, b, c, d]).sum = 100) ∧
    (a + b + c + d = 0 → reconcile_percentages [a, b, c, d] = [0, 0, 0, 0]) := by
  have hS : List.sum [a, b, c, d] = a + b + c + d := by
    simp
    omega
  constructor
  · intro hT
    have hT' : 0 < List.sum [a, b, c, d] := by omega
    have hne : List.sum [a, b, c, d] ≠ 0 := by omega
    unfold reconcile_percentages
    rw [if_pos hT']
    by_cases hrem : 0 < percent_remainder [a, b, c, d]
    · rw [if_pos hrem]
      have hlenB : (base_percentages [a, b, c, d]).length = 4 := by
        simp [base_percentages, raw_percentages]
      have hg : ∀ i, ((sorted_fractional [a, b, c, d]).getD
          (i % (sorted_fractional [a, b, c, d]).length) (0, 0)).2 < 4 := by
        intro i
        have := sorted_getD_snd_lt [a, b, c, d] (by simp) i
        simpa using this
      have hfold := fold_incr_sum_length _ 4 hg (percent_remainder [a, b, c, d]).toNat
        (base_percentages [a, b, c, d]) hlenB
      refine hfold.2.trans ?_
      have hle := base_sum_le_100 [a, b, c, d] hne
      unfold percent_remainder at hrem ⊢
      omega
    · rw [if_neg hrem]
      have hle := base_sum_le_100 [a, b, c, d] hne
      unfold percent_remainder at hrem
      omega
  · intro h0
    unfold reconcile_percentages
    rw [if_neg (by omega)]

/-- Witness for C1 at the counts `[1,1,1,0]` (positive total) and
`[0,0,0,0]` (zero total). -/
theorem reconcile_percentages_sum_witness :
    (0 < 1 + 1 + 1 + 0 ∧ (reconcile_percentages [1, 1, 1, 0]).sum = 100) ∧
    ((0 : ℕ) + 0 + 0 + 0 = 0 ∧ reconcile_percentages [0, 0, 0, 0] = [0, 0, 0, 0]) :=
  ⟨⟨by norm_num, (reconcile_percentages_sum 1 1 1 0).1 (by norm_num)⟩,
   ⟨rfl, (reconcile_percentages_sum 0 0 0 0).2 rfl⟩⟩

/-! ## C2: which entries receive the leftover percentage points -/

theorem fracparts_length (counts : List ℕ) :
    (fractional_parts counts).length = counts.length := by
  unfold fractional_parts
  rw [List.length_map, List.enum_length, raw_percentages_length]

theorem fracparts_getD (counts : List ℕ) (k : ℕ) (hk : k < counts.length) :
    (fractional_parts counts).getD k (0, 0) =
      ((raw_percentages counts).getD k 0 - (⌊(raw_percentages counts).getD k 0⌋ : ℚ), k) := by
  have hk1 : k < (raw_percentages counts).length := by
    rw [raw_percentages_length]
    exact hk
  have hk3 : k < (fractional_parts counts).length := by
    rw [fracparts_length]
    exact hk
  unfold fractional_parts
  rw [List.getD_eq_getElem _ _ (by rw [List.length_map, List.enum_length]; exact hk1),
    List.getElem_map, List.getElem_enum, List.getD_eq_getElem _ _ hk1]

theorem fracparts_map_snd (counts : List ℕ) :
    (fractional_parts counts).map Prod.snd = List.range counts.length := by
  unfold fractional_parts
  rw [List.map_map]
  have hcomp : (Prod.snd ∘ fun ip : ℕ × ℚ => (ip.2 - (⌊ip.2⌋ : ℚ), ip.1)) = Prod.fst := by
    funext ip
    rfl
  rw [hcomp, List.enum_map_fst, raw_percentages_length]

theorem mem_fracparts_eq (counts : List ℕ) {x : ℚ × ℕ} (hx : x ∈ fractional_parts counts) :
    x.2 < counts.length ∧ x = (fractional_parts counts).getD x.2 (0, 0) := by
  unfold fractional_parts at hx
  obtain ⟨ip, hip, rfl⟩ := List.mem_map.mp hx
  obtain ⟨k, p⟩ := ip
  have hk : k < (raw_percentages counts).length := List.fst_lt_of_mem_enum hip
  have hget : (raw_percentages counts)[k]? = some p := List.mk_mem_enum_iff_getElem?.mp hip
  have hk' : k < counts.length := by
    rw [← raw_percentages_length counts]
    exact hk
  refine ⟨hk', ?_⟩
  have hp : (raw_percentages counts)[k] = p := by
    have h1 := List.getElem?_eq_getElem hk
    rw [hget] at h1
    exact (Option.some.inj h1).symm
  rw [fracparts_getD counts k hk', List.getD_eq_getElem _ _ hk, hp]

theorem sorted_fractional_snd_nodup (counts : List ℕ) :
    ((sorted_fractional counts).map Prod.snd).Nodup := by
  have hperm : List.Perm ((sorted_fractional counts).map Prod.snd)
      ((fractional_parts counts).map Prod.snd) :=
    (List.perm_insertionSort frac_desc (fractional_parts counts)).map _
  rw [List.Perm.nodup_iff hperm, fracparts_map_snd]
  exact List.nodup_range _

theorem sorted_fractional_surj (counts : List ℕ) (j : ℕ) (hj : j < counts.length) :
    ∃ m, ∃ hm : m < (sorted_fractional counts).length,
      (sorted_fractional counts)[m] = (fractional_parts counts).getD j (0, 0) := by
  have hjF : j < (fractional_parts counts).length := by
    rw [fracparts_length]
    exact hj
  have hmem : (fractional_parts counts).getD j (0, 0) ∈ fractional_parts counts := by
    rw [List.getD_eq_getElem _ _ hjF]
    exact List.getElem_mem hjF
  have hmem' : (fractional_parts counts).getD j (0, 0) ∈ sorted_fractional counts := by
    unfold sorted_fractional
    rw [List.mem_insertionSort]
    exact hmem
  exact List.getElem_of_mem hmem'

theorem sorted_fractional_getElem_snd (counts : List ℕ) (k : ℕ)
    (hk : k < (sorted_fractional counts).length) :
    ((sorted_fractional counts)[k]).2 < counts.length ∧
    (sorted_fractional counts)[k] =
      (fractional_parts counts).getD ((sorted_fractional counts)[k]).2 (0, 0) := by
  have hmem : (sorted_fractional counts)[k] ∈ sorted_fractional counts := List.getElem_mem hk
  have hmemF : (sorted_fractional counts)[k] ∈ fractional_parts counts := by
    unfold sorted_fractional at hmem
    rwa [List.mem_insertionSort] at hmem
  exact mem_fracparts_eq counts hmemF

theorem sorted_fractional_snd_inj (counts : List ℕ) (k m : ℕ)
    (hk : k < (sorted_fractional counts).length) (hm : m < (sorted_fractional counts).length)
    (he : ((sorted_fractional counts)[k]).2 = ((sorted_fractional counts)[m]).2) : k = m := by
  have hnd := sorted_fractional_snd_nodup counts
  have hk' : k < ((sorted_fractional counts).map Prod.snd).length := by
    rw [List.length_map]
    exact hk
  have hm' : m < ((sorted_fractional counts).map Prod.snd).length := by
    rw [List.length_map]
    exact hm
  have : ((sorted_fractional counts).map Prod.snd)[k] =
      ((sorted_fractional counts).map Prod.snd)[m] := by
    rw [List.getElem_map, List.getElem_map]
    exact he
  exact (List.Nodup.getElem_inj_iff hnd).mp this

theorem fold_incr_getD_count (g : ℕ → ℕ) (n : ℕ) (hg : ∀ i, g i < n) :
    ∀ (r : ℕ) (bp : List ℕ), bp.length = n → ∀ t, t < n →
      ((List.range r).foldl (fun x i => incr_at x (g i)) bp).getD t 0 =
        bp.getD t 0 + ((List.range r).countP fun i => g i == t) := by
  intro r
  induction r with
  | zero =>
    intro bp h t ht
    simp
  | succ m ih =>
    intro bp h t ht
    rw [List.range_succ, List.foldl_append, List.countP_append]
    simp only [List.foldl_cons, List.foldl_nil, List.countP_cons, List.countP_nil]
    have hlen := (fold_incr_sum_length g n hg m bp h).1
    rw [incr_at_getD, ih bp h t ht]
    by_cases hc : g m = t
    · rw [if_pos ⟨hc, by rw [hlen]; exact ht⟩, if_pos (beq_iff_eq.mpr hc)]
      omega
    · rw [if_neg fun hand => hc hand.1, if_neg (by simpa using hc)]
      omega

theorem countP_range_unique (P : ℕ → Bool) (m : ℕ) :
    ∀ r : ℕ, (∀ i, i < r → (P i = true ↔ i = m)) →
      (List.range r).countP P = if m < r then 1 else 0 := by
  intro r
  induction r with
  | zero => simp
  | succ k ih =>
    intro h
    rw [List.range_succ, List.countP_append]
    simp only [List.countP_cons, List.countP_nil]
    rw [ih fun i hi => h i (by omega)]
    have hk := h k (by omega)
    have hkm : k ≠ m → P k = false := by
      intro hc
      cases hPk : P k with
      | true => exact absurd (hk.mp hPk) hc
      | false => rfl
    by_cases hc : k = m
    · rw [if_pos (hk.mpr hc)]
      subst hc
      split_ifs <;> omega
    · have hpf : P k = false := hkm hc
      rw [hpf, if_neg (fun h : false = true => Bool.noConfusion h)]
      have hne : k ≠ m := hc
      split_ifs <;> omega

/-- C2 (amended): with a positive total, `base[i] = ⌊counts[i]·100/total⌋`, the
leftover `remainder = 100 − Σ base` lies in `[0, 3]` — so the cyclic wrap of
the distribution loop can never actually trigger — each entry receives at
most one extra point, exactly `remainder` extra points are handed out in
total, and the receiving set is upward closed in the order "larger fractional
part first, ties to the *larger* original index": if entry `i` received a
point and entry `j` has a larger fractional part, or an equal fractional part
and a larger index, then `j` received one too. -/
theorem reconcile_largest_remainder (a b c d : ℕ) (hT : 0 < a + b + c + d) :
    (0 ≤ percent_remainder [a, b, c, d] ∧ percent_remainder [a, b, c, d] ≤ 3) ∧
    base_percentages [a, b, c, d] =
      [(⌊(a : ℚ) * 100 / ((a + b + c + d : ℕ) : ℚ)⌋).toNat,
       (⌊(b : ℚ) * 100 / ((a + b + c + d : ℕ) : ℚ)⌋).toNat,
       (⌊(c : ℚ) * 100 / ((a + b + c + d : ℕ) : ℚ)⌋).toNat,
       (⌊(d : ℚ) * 100 / ((a + b + c + d : ℕ) : ℚ)⌋).toNat] ∧
    (reconcile_percentages [a, b, c, d]).sum =
      (base_percentages [a, b, c, d]).sum + (percent_remainder [a, b, c, d]).toNat ∧
    (∀ i < 4,
      (reconcile_percentages [a, b, c, d]).getD i 0 =
        (base_percentages [a, b, c, d]).getD i 0 ∨
      (reconcile_percentages [a, b, c, d]).getD i 0 =
        (base_percentages [a, b, c, d]).getD i 0 + 1) ∧
    (∀ i < 4, ∀ j < 4,
      (reconcile_percentages [a, b, c, d]).getD i 0 =
        (base_percentages [a, b, c, d]).getD i 0 + 1 →
      (((fractional_parts [a, b, c, d]).getD i (0, 0)).1 <
          ((fractional_parts [a, b, c, d]).getD j (0, 0)).1 ∨
        (((fractional_parts [a, b, c, d]).getD i (0, 0)).1 =
            ((fractional_parts [a, b, c, d]).getD j (0, 0)).1 ∧ i < j)) →
      (reconcile_percentages [a, b, c, d]).getD j 0 =
        (base_percentages [a, b, c, d]).getD j 0 + 1) := by
  have hS : List.sum [a, b, c, d] = a + b + c + d := by
    simp
    omega
  have hT' : 0 < List.sum [a, b, c, d] := by omega
  have hne : List.sum [a, b, c, d] ≠ 0 := by omega
  have hlen4 : ([a, b, c, d] : List ℕ).length = 4 := rfl
  have hr0 : 0 ≤ percent_remainder [a, b, c, d] := by
    have := base_sum_le_100 [a, b, c, d] hne
    unfold percent_remainder
    omega
  have hr3 : percent_remainder [a, b, c, d] ≤ 3 := by
    have := base_sum_ge_97 [a, b, c, d] hne hlen4
    unfold percent_remainder
    omega
  have hbase : base_percentages [a, b, c, d] =
      [(⌊(a : ℚ) * 100 / ((a + b + c + d : ℕ) : ℚ)⌋).toNat,
       (⌊(b : ℚ) * 100 / ((a + b + c + d : ℕ) : ℚ)⌋).toNat,
       (⌊(c : ℚ) * 100 / ((a + b + c + d : ℕ) : ℚ)⌋).toNat,
       (⌊(d : ℚ) * 100 / ((a + b + c + d : ℕ) : ℚ)⌋).toNat] := by
    unfold base_percentages raw_percentages
    simp only [hS, List.map_cons, List.map_nil]
  refine ⟨⟨hr0, hr3⟩, hbase, ?_⟩
  by_cases hrem : 0 < percent_remainder [a, b, c, d]
  · have hlenS : (sorted_fractional [a, b, c, d]).length = 4 :=
      sorted_fractional_length [a, b, c, d]
    have hlenB : (base_percentages [a, b, c, d]).length = 4 := by
      unfold base_percentages
      rw [List.length_map, raw_percentages_length]
      exact hlen4
    have hg : ∀ i, ((sorted_fractional [a, b, c, d]).getD
        (i % (sorted_fractional [a, b, c, d]).length) (0, 0)).2 < 4 := by
      intro i
      have := sorted_getD_snd_lt [a, b, c, d] (by simp) i
      simpa using this
    have hO : reconcile_percentages [a, b, c, d] =
        (List.range (percent_remainder [a, b, c, d]).toNat).foldl
          (fun bp i => incr_at bp ((sorted_fractional [a, b, c, d]).getD
            (i % (sorted_fractional [a, b, c, d]).length) (0, 0)).2)
          (base_percentages [a, b, c, d]) := by
      unfold reconcile_percentages
      rw [if_pos hT', if_pos hrem]
    have hsum := (fold_incr_sum_length _ 4 hg (percent_remainder [a, b, c, d]).toNat
      (base_percentages [a, b, c, d]) hlenB).2
    have hchar : ∀ j, j < 4 → ∀ m, ∀ hm : m < (sorted_fractional [a, b, c, d]).length,
        (sorted_fractional [a, b, c, d])[m] =
          (fractional_parts [a, b, c, d]).getD j (0, 0) →
        (reconcile_percentages [a, b, c, d]).getD j 0 =
          (base_percentages [a, b, c, d]).getD j 0 +
            (if m < (percent_remainder [a, b, c, d]).toNat then 1 else 0) := by
      intro j hj m hm hSm
      have hfc := fold_incr_getD_count
        (fun i => ((sorted_fractional [a, b, c, d]).getD
          (i % (sorted_fractional [a, b, c, d]).length) (0, 0)).2)
        4 hg (percent_remainder [a, b, c, d]).toNat
        (base_percentages [a, b, c, d]) hlenB j hj
      rw [hO]
      refine hfc.trans ?_
      congr 1
      apply countP_range_unique
      intro i hi
      show (((sorted_fractional [a, b, c, d]).getD
          (i % (sorted_fractional [a, b, c, d]).length) (0, 0)).2 == j) = true ↔ i = m
      have hi4 : i < 4 := by omega
      have himod : i % (sorted_fractional [a, b, c, d]).length = i := by
        rw [hlenS]
        exact Nat.mod_eq_of_lt hi4
      rw [himod, List.getD_eq_getElem _ _ (by rw [hlenS]; exact hi4), beq_iff_eq]
      constructor
      · intro hkj
        apply sorted_fractional_snd_inj [a, b, c, d] i m
          (by rw [hlenS]; exact hi4) hm
        rw [hkj, hSm, fracparts_getD [a, b, c, d] j hj]
      · intro him
        subst him
        rw [hSm, fracparts_getD [a, b, c, d] j hj]
    refine ⟨by rw [hO]; exact hsum, ?_, ?_⟩
    · intro i hi
      obtain ⟨m, hm, hSm⟩ := sorted_fractional_surj [a, b, c, d] i (by omega)
      have hci := hchar i hi m hm hSm
      by_cases hc : m < (percent_remainder [a, b, c, d]).toNat
      · right
        rw [hci, if_pos hc]
      · left
        rw [hci, if_neg hc]
        omega
    · intro i hi j hj hprem hlex
      obtain ⟨mi, hmi, hSmi⟩ := sorted_fractional_surj [a, b, c, d] i (by omega)
      obtain ⟨mj, hmj, hSmj⟩ := sorted_fractional_surj [a, b, c, d] j (by omega)
      have hmj4 : mj < 4 := by rw [hlenS] at hmj; exact hmj
      have hci := hchar i hi mi hmi hSmi
      have hcj := hchar j hj mj hmj hSmj
      have hmi_lt : mi < (percent_remainder [a, b, c, d]).toNat := by
        by_contra hcon
        rw [hci, if_neg hcon] at hprem
        omega
      by_cases hcon : mj < (percent_remainder [a, b, c, d]).toNat
      · rw [hcj, if_pos hcon]
      · exfalso
        have hmimj : mi < mj := by omega
        have hsorted : List.Sorted frac_desc (sorted_fractional [a, b, c, d]) :=
          List.sorted_insertionSort frac_desc (fractional_parts [a, b, c, d])
        have hrel := List.Sorted.rel_get_of_lt hsorted
          (a := ⟨mi, hmi⟩) (b := ⟨mj, hmj⟩) (by simpa using hmimj)
        have hrel' : frac_desc ((fractional_parts [a, b, c, d]).getD i (0, 0))
            ((fractional_parts [a, b, c, d]).getD j (0, 0)) := by
          rw [← hSmi, ← hSmj]
          exact hrel
        have hsndi : ((fractional_parts [a, b, c, d]).getD i (0, 0)).2 = i := by
          rw [fracparts_getD [a, b, c, d] i (by omega)]
        have hsndj : ((fractional_parts [a, b, c, d]).getD j (0, 0)).2 = j := by
          rw [fracparts_getD [a, b, c, d] j (by omega)]
        unfold frac_desc at hrel'
        rcases hlex with hlt | ⟨heq, hij⟩
        · rcases hrel' with h1 | ⟨h2, h3⟩
          · exact absurd hlt (not_lt.mpr h1.le)
          · rw [h2] at hlt
            exact lt_irrefl _ hlt
        · rcases hrel' with h1 | ⟨h2, h3⟩
          · rw [heq] at h1
            exact lt_irrefl _ h1
          · rw [hsndi, hsndj] at h3
            omega
  · have hO : reconcile_percentages [a, b, c, d] = base_percentages [a, b, c, d] := by
      unfold reconcile_percentages
      rw [if_pos hT', if_neg hrem]
    have hzero : (percent_remainder [a, b, c, d]).toNat = 0 := by omega
    refine ⟨by rw [hO, hzero]; omega, fun i _ => Or.inl (by rw [hO]), ?_⟩
    intro i _ j _ hprem _
    rw [hO] at hprem
    omega

/-- Counterexample to C2 as stated: at counts `[1,1,1,0]` the indices 0 and 2
have equal fractional parts and the remainder is one point; ascending
tie-breaking (the claim) would give the point to index 0, but the code's
descending tuple sort gives it to index 2. -/
theorem reconcile_tie_break_counterexample :
    reconcile_percentages [1, 1, 1, 0] = [33, 33, 34, 0] ∧
    reconcile_percentages_spec_asc [1, 1, 1, 0] = [34, 33, 33, 0] ∧
    reconcile_percentages [1, 1, 1, 0] ≠ reconcile_percentages_spec_asc [1, 1, 1, 0] ∧
    ((fractional_parts [1, 1, 1, 0]).getD 0 (0, 0)).1 =
      ((fractional_parts [1, 1, 1, 0]).getD 2 (0, 0)).1 ∧
    percent_remainder [1, 1, 1, 0] = 1 ∧
    (reconcile_percentages [1, 1, 1, 0]).getD 0 0 = (base_percentages [1, 1, 1, 0]).getD 0 0 ∧
    (reconcile_percentages [1, 1, 1, 0]).getD 2 0 =
      (base_percentages [1, 1, 1, 0]).getD 2 0 + 1 :=
  ⟨by decide, by decide, by decide, by decide, by decide, by decide, by decide⟩

/-- Witness for the amended C2 at the counts `[1,1,1,0]`. -/
theorem reconcile_largest_remainder_witness :
    (0 ≤ percent_remainder [1, 1, 1, 0] ∧ percent_remainder [1, 1, 1, 0] ≤ 3) ∧
    (reconcile_percentages [1, 1, 1, 0]).sum =
      (base_percentages [1, 1, 1, 0]).sum + (percent_remainder [1, 1, 1, 0]).toNat ∧
    (∀ i < 4,
      (reconcile_percentages [1, 1, 1, 0]).getD i 0 = (base_percentages [1, 1, 1, 0]).getD i 0 ∨
      (reconcile_percentages [1, 1, 1, 0]).getD i 0 =
        (base_percentages [1, 1, 1, 0]).getD i 0 + 1) := by
  obtain ⟨h1, -, h3, h4, -⟩ := reconcile_largest_remainder 1 1 1 0 (by norm_num)
  exact ⟨h1, h3, h4⟩
